import Mathlib

/-!
Rounded-rect property readers of `cpp/rnskia/dom/props/RRectProp.h`

A shallow embedding of the value decoder `RRectProp::processRRect` and of the four
derived-property readers `RRectProp`, `RRectPropFromProps`, `RRectProps` and `BoxProps`.

The header only *uses* the generic value representation (`JsiValue`), the raw property
store (`NodeProp`), the derived-property base class (`DerivedProp`) and the geometry
engine (`SkRect`, `SkRRect`, `SkPoint`); those parts are modelled from the specification
and every such definition says so in its doc comment.  The bodies of `processRRect` and
of the four `updateDerivedValue` methods are transcribed from the header.  The change
notification that decides which reader runs after a raw property changed belongs to the
base class as well; the wave `RRectProps.rawPropertyChanged` is modelled from the
specification and calls the transcribed bodies.
-/

set_option autoImplicit false

namespace RNSkia

/-! ## Collaborators that the header only uses -/

/-- Modelled from the spec: the payload of a `Number` value. The header never computes
with a number, it only moves numbers from a value into a geometry constructor, so
exact rationals stand for them. -/
abbrev Number := Rat

/-- Modelled from the spec: `PropId`, the interned identifier of a property name. Two
identifiers are equal exactly when the names are. -/
abbrev PropId := String

/-- Modelled from the spec: the identifier `rect` (declared next to the plain rect reader). -/
def PropNameRect : PropId := "rect"
/-- Modelled from the spec: the identifier `x`. -/
def PropNameX : PropId := "x"
/-- Modelled from the spec: the identifier `y`. -/
def PropNameY : PropId := "y"
/-- Modelled from the spec: the identifier `width`. -/
def PropNameWidth : PropId := "width"
/-- Modelled from the spec: the identifier `height`. -/
def PropNameHeight : PropId := "height"

/-- Line 20 of the header. -/
def PropNameRx : PropId := "rx"
/-- Line 21 of the header. -/
def PropNameRy : PropId := "ry"
/-- Line 22 of the header. -/
def PropNameR : PropId := "r"
/-- Line 23 of the header. -/
def PropNameTopLeft : PropId := "topLeft"
/-- Line 24 of the header. -/
def PropNameTopRight : PropId := "topRight"
/-- Line 25 of the header. -/
def PropNameBottomRight : PropId := "bottomRight"
/-- Line 26 of the header. -/
def PropNameBottomLeft : PropId := "bottomLeft"

/-- Modelled from the spec: a corner-radius vector of the geometry engine. -/
structure SkPoint where
  fX : Number
  fY : Number
  deriving DecidableEq, Repr

/-- Modelled from the spec: `SkPoint::Make`. -/
def SkPoint.Make (x y : Number) : SkPoint := ⟨x, y⟩

/-- Modelled from the spec: the accessor `x()` of a point. -/
def SkPoint.x (p : SkPoint) : Number := p.fX

/-- Modelled from the spec: the accessor `y()` of a point. -/
def SkPoint.y (p : SkPoint) : Number := p.fY

/-- Modelled from the spec: a rectangle (x, y, width, height) of the geometry engine. -/
structure SkRect where
  x : Number
  y : Number
  width : Number
  height : Number
  deriving DecidableEq, Repr

/-- Modelled from the spec: rectangle construction from (x, y, width, height). -/
def SkRect.MakeXYWH (x y w h : Number) : SkRect := ⟨x, y, w, h⟩

/-- Modelled from the spec: the resolved primitive, a rectangle plus four corner-radius
vectors in clockwise order starting at top-left (positions 0, 1, 2, 3). A uniform rounded
rect is one whose four vectors are the same radius pair. The engine-internal adjustment
of radii that do not fit the rectangle is outside the header and is not modelled. -/
structure SkRRect where
  fRect : SkRect
  upperLeft : SkPoint
  upperRight : SkPoint
  lowerRight : SkPoint
  lowerLeft : SkPoint
  deriving DecidableEq, Repr

namespace SkRRect

/-- Modelled from the spec: the uniform-radius constructor, rectangle plus (rx, ry). -/
def MakeRectXY (rect : SkRect) (xRad yRad : Number) : SkRRect :=
  ⟨rect, ⟨xRad, yRad⟩, ⟨xRad, yRad⟩, ⟨xRad, yRad⟩, ⟨xRad, yRad⟩⟩

/-- Modelled from the spec: the rounded rect with zero radii made from a plain rectangle. -/
def MakeRect (rect : SkRect) : SkRRect :=
  ⟨rect, ⟨0, 0⟩, ⟨0, 0⟩, ⟨0, 0⟩, ⟨0, 0⟩⟩

/-- Modelled from the spec: the empty sentinel constructor. -/
def MakeEmpty : SkRRect :=
  MakeRect ⟨0, 0, 0, 0⟩

/-- Modelled from the spec: the per-corner constructor. It overwrites the receiver with
the rectangle and the four points read from the array at positions 0..3, the fixed
clockwise order top-left, top-right, bottom-right, bottom-left. -/
def setRectRadii (_self : SkRRect) (rect : SkRect) (radii : List SkPoint) : SkRRect :=
  ⟨rect, radii.getD 0 ⟨0, 0⟩, radii.getD 1 ⟨0, 0⟩, radii.getD 2 ⟨0, 0⟩, radii.getD 3 ⟨0, 0⟩⟩

/-- Modelled from the spec: the bounding rectangle of a rounded rect. -/
def rect (r : SkRRect) : SkRect := r.fRect

/-- Modelled from the spec: the single symmetric radius pair of a rounded rect, the pair
stored at position 0. -/
def getSimpleRadii (r : SkRRect) : SkPoint := r.upperLeft

/-- Modelled from the spec: the corner-radius vector at a position 0..3. -/
def radii (r : SkRRect) (corner : Nat) : SkPoint :=
  match corner with
  | 0 => r.upperLeft
  | 1 => r.upperRight
  | 2 => r.lowerRight
  | _ => r.lowerLeft

end SkRRect

/-- Modelled from the spec: the host wrapper of a rounded rect (`JsiSkRRect`). -/
structure JsiSkRRect where
  object : SkRRect
  deriving DecidableEq, Repr

/-- Modelled from the spec: `getObject()` of the wrapper. -/
def JsiSkRRect.getObject (h : JsiSkRRect) : SkRRect := h.object

/-- Modelled from the spec: a host object carried by a value. It is either a
rounded-rect handle or some other host object, told apart by an identifier. -/
inductive HostObject where
  | jsiSkRRect (handle : JsiSkRRect)
  | other (id : Nat)
  deriving DecidableEq, Repr

/-- Modelled from the spec: the downcast of a host object to a rounded-rect handle
(`std::dynamic_pointer_cast<JsiSkRRect>`), empty when the object is of another class. -/
def dynamicPointerCastJsiSkRRect : HostObject → Option JsiSkRRect
  | .jsiSkRRect h => some h
  | .other _ => none

/-- Modelled from the spec: the type tags of the generic value. -/
inductive PropType where
  | Undefined
  | Number
  | String
  | Object
  | HostObject
  deriving DecidableEq, Repr

/-- Modelled from the spec: `JsiValue`, the generic tagged value
{Number, String, Object(mapping name to value), host object, Undefined}. The mapping of
an object is an association list read at the first entry of a name. -/
inductive JsiValue where
  | undefined
  | number (n : Number)
  | string (s : String)
  | object (props : List (PropId × JsiValue))
  | hostObject (h : HostObject)

/-- Modelled from the spec: the fatal type error raised by an accessor of the generic
value or of a raw property that is used on the wrong kind of value. -/
inductive JsiError where
  | typeMismatch
  deriving DecidableEq, Repr

namespace JsiValue

/-- Modelled from the spec: the entry of a name in the mapping of an object. -/
def find (name : PropId) : List (PropId × JsiValue) → Option JsiValue
  | [] => none
  | (k, v) :: rest => if k = name then some v else find name rest

/-- Modelled from the spec: tag inspection `getType()`. -/
def getType : JsiValue → PropType
  | undefined => PropType.Undefined
  | number _ => PropType.Number
  | string _ => PropType.String
  | object _ => PropType.Object
  | hostObject _ => PropType.HostObject

/-- Modelled from the spec: field presence check `hasValue(name)`, fatal on a value
that is not an object. -/
def hasValue (v : JsiValue) (name : PropId) : Except JsiError Bool :=
  match v with
  | object props => .ok (find name props).isSome
  | _ => .error JsiError.typeMismatch

/-- Modelled from the spec: field extraction `getValue(name)`, fatal on a value that is
not an object and on a field that is not there. -/
def getValue (v : JsiValue) (name : PropId) : Except JsiError JsiValue :=
  match v with
  | object props =>
    match find name props with
    | some w => .ok w
    | none => .error JsiError.typeMismatch
  | _ => .error JsiError.typeMismatch

/-- Modelled from the spec: typed extraction `getAsNumber()`, fatal on a value that is
not a number. -/
def getAsNumber : JsiValue → Except JsiError Number
  | number n => .ok n
  | _ => .error JsiError.typeMismatch

/-- Modelled from the spec: the host-object accessor, fatal on a value that is not a
host object. -/
def getAsHostObject : JsiValue → Except JsiError HostObject
  | hostObject h => .ok h
  | _ => .error JsiError.typeMismatch

end JsiValue

/-- Equality of results is decidable, so that a decoder run can be evaluated. -/
instance instDecidableEqExcept {ε α : Type} [DecidableEq ε] [DecidableEq α] :
    DecidableEq (Except ε α)
  | .ok a, .ok b => if h : a = b then isTrue (by rw [h]) else isFalse (by intro e; cases e; exact h rfl)
  | .error a, .error b =>
    if h : a = b then isTrue (by rw [h]) else isFalse (by intro e; cases e; exact h rfl)
  | .ok _, .error _ => isFalse (by intro e; cases e)
  | .error _, .ok _ => isFalse (by intro e; cases e)

/-- The short-circuit conjunction `a && b` of two checks that may fail: `b` is only
evaluated when `a` returned true. -/
def andAlso (a b : Except JsiError Bool) : Except JsiError Bool :=
  match a with
  | .ok true => b
  | .ok false => .ok false
  | .error e => .error e

/-! ## The value decoder -/

/-- The body of `RRectProp::processRRect` (lines 41-121). `none` is the null pointer
returned at line 120, reached by every path that does not return earlier. -/
def RRectProp.processRRect (value : JsiValue) : Except JsiError (Option SkRRect) := do
  if value.getType = PropType.HostObject then
    -- Try reading as rect
    let rectPtr := dynamicPointerCastJsiSkRRect (← value.getAsHostObject)
    match rectPtr with
    | some rectPtr =>
      let rrect := rectPtr.getObject
      pure (some (SkRRect.MakeRectXY rrect.rect rrect.getSimpleRadii.x
        rrect.getSimpleRadii.y))
    | none => pure none
  else
    if value.getType = PropType.Object then
      if (← andAlso (value.hasValue PropNameRect)
            (andAlso (value.hasValue PropNameRx) (value.hasValue PropNameRy))) then
        let rect ← value.getValue PropNameRect
        if (← andAlso (rect.hasValue PropNameX) (andAlso (rect.hasValue PropNameY)
              (andAlso (rect.hasValue PropNameWidth) (rect.hasValue PropNameHeight)))) then
          let x ← rect.getValue PropNameX
          let y ← rect.getValue PropNameY
          let width ← rect.getValue PropNameWidth
          let height ← rect.getValue PropNameHeight
          let rx ← value.getValue PropNameRx
          let ry ← value.getValue PropNameRy
          -- Update cache from js object value
          let rectangle := SkRect.MakeXYWH (← x.getAsNumber) (← y.getAsNumber)
            (← width.getAsNumber) (← height.getAsNumber)
          pure (some (SkRRect.MakeRectXY rectangle (← rx.getAsNumber) (← ry.getAsNumber)))
        else
          pure none
      else if (← andAlso (value.hasValue PropNameRect)
            (andAlso (value.hasValue PropNameTopLeft)
            (andAlso (value.hasValue PropNameTopRight)
            (andAlso (value.hasValue PropNameBottomRight)
              (value.hasValue PropNameBottomLeft))))) then
        let rect ← value.getValue PropNameRect
        if (← andAlso (rect.hasValue PropNameX) (andAlso (rect.hasValue PropNameY)
              (andAlso (rect.hasValue PropNameWidth) (rect.hasValue PropNameHeight)))) then
          let x ← rect.getValue PropNameX
          let y ← rect.getValue PropNameY
          let width ← rect.getValue PropNameWidth
          let height ← rect.getValue PropNameHeight
          let points : List SkPoint := []
          let topLeft ← value.getValue PropNameTopLeft
          let topLeftX ← topLeft.getValue PropNameX
          let topLeftY ← topLeft.getValue PropNameY
          let points := points ++ [SkPoint.Make (← topLeftX.getAsNumber) (← topLeftY.getAsNumber)]
          let topRight ← value.getValue PropNameTopRight
          let topRightX ← topRight.getValue PropNameX
          let topRightY ← topRight.getValue PropNameY
          let points := points ++ [SkPoint.Make (← topRightX.getAsNumber) (← topRightY.getAsNumber)]
          let bottomRight ← value.getValue PropNameBottomRight
          let bottomRightX ← bottomRight.getValue PropNameX
          let bottomRightY ← bottomRight.getValue PropNameY
          let points := points ++
            [SkPoint.Make (← bottomRightX.getAsNumber) (← bottomRightY.getAsNumber)]
          let bottomLeft ← value.getValue PropNameBottomLeft
          let bottomLeftX ← bottomLeft.getValue PropNameX
          let bottomLeftY ← bottomLeft.getValue PropNameY
          let points := points ++
            [SkPoint.Make (← bottomLeftX.getAsNumber) (← bottomLeftY.getAsNumber)]
          let rrect := SkRRect.MakeEmpty
          let rectangle := SkRect.MakeXYWH (← x.getAsNumber) (← y.getAsNumber)
            (← width.getAsNumber) (← height.getAsNumber)
          pure (some (rrect.setRectRadii rectangle points))
        else
          pure none
      else
        pure none
    else
      pure none

/-! ## The derived-property readers -/

/-- A declared dependency of a reader: a raw property of the node, named, or one of the
two child readers of the chain reader (`_rectProp`, `_rectPropFromProps`). -/
inductive Dep where
  | raw (name : PropId)
  | rectProp
  | rectPropFromProps
  deriving DecidableEq, Repr

/-- What one call of `updateDerivedValue` does to its surroundings, in program order:
it asks a dependency whether it is set (and gets an answer), it reads the value of a
dependency (`value()` of a raw property, `getUnsafeDerivedValue()` of a child reader),
or it calls `setDerivedValue` with a value or with null. -/
inductive Event where
  | isSet (dep : Dep) (answer : Bool)
  | read (dep : Dep)
  | setDerivedValue (value : Option SkRRect)
  deriving DecidableEq, Repr

/-- A run of reader code: the events it performed and how it ended, with a result or
with the fatal error that stopped it. -/
structure Exec (α : Type) where
  events : List Event
  result : Except JsiError α

namespace Exec

/-- A run that does nothing and returns `a`. -/
def ret {α : Type} (a : α) : Exec α := ⟨[], .ok a⟩

/-- Sequencing: the second run starts only when the first returned. -/
def andThen {α β : Type} (m : Exec α) (f : α → Exec β) : Exec β :=
  match m.result with
  | .ok a => ⟨m.events ++ (f a).events, (f a).result⟩
  | .error e => ⟨m.events, .error e⟩

/-- A call of a function that performs no event but may fail (a decoder, an accessor). -/
def lift {α : Type} (r : Except JsiError α) : Exec α := ⟨[], r⟩

/-- The short-circuit conjunction `a && b`: `b` runs only when `a` returned true. -/
def andAlso (a b : Exec Bool) : Exec Bool :=
  andThen a (fun c => if c then b else ret false)

end Exec

instance : Monad Exec where
  pure := Exec.ret
  bind := Exec.andThen

/-- Modelled from the spec: a raw property of the node, identified by a name and
holding a generic value or nothing. -/
structure NodeProp where
  name : PropId
  current : Option JsiValue

/-- Modelled from the spec: `isSet()` of a raw property, whether a value is bound. -/
def NodeProp.isSet (p : NodeProp) : Exec Bool :=
  ⟨[Event.isSet (Dep.raw p.name) p.current.isSome], .ok p.current.isSome⟩

/-- Modelled from the spec: `value()` of a raw property, fatal when read while unset. -/
def NodeProp.value (p : NodeProp) : Exec JsiValue :=
  ⟨[Event.read (Dep.raw p.name)],
    match p.current with
    | some v => .ok v
    | none => .error JsiError.typeMismatch⟩

/-- The leaf reader `RRectProp` (lines 33-132): its raw property and, modelled from the
spec, the cache of the derived-property base class. -/
structure RRectProp where
  _prop : NodeProp
  _derivedValue : Option SkRRect

/-- Modelled from the spec: `isSet()` of a derived property, whether the cache holds a value. -/
def RRectProp.isSet (self : RRectProp) : Bool := self._derivedValue.isSome

/-- Modelled from the spec: `getUnsafeDerivedValue()`, the cached pointer as it is. -/
def RRectProp.getUnsafeDerivedValue (self : RRectProp) : Option SkRRect := self._derivedValue

/-- Modelled from the spec: `setDerivedValue`, which replaces the cache. -/
def RRectProp.setDerivedValue (self : RRectProp) (value : Option SkRRect) : Exec RRectProp :=
  ⟨[Event.setDerivedValue value], .ok { self with _derivedValue := value }⟩

/-- The body of `RRectProp::updateDerivedValue` (lines 123-128). -/
def RRectProp.updateDerivedValue (self : RRectProp) : Exec RRectProp := do
  if (← self._prop.isSet) then
    let value ← self._prop.value
    self.setDerivedValue (← Exec.lift (RRectProp.processRRect value))
  else
    pure self

/-- The composite reader `RRectPropFromProps` (lines 137-166): its five raw properties
and, modelled from the spec, the cache of the derived-property base class. -/
structure RRectPropFromProps where
  _x : NodeProp
  _y : NodeProp
  _width : NodeProp
  _height : NodeProp
  _r : NodeProp
  _derivedValue : Option SkRRect

/-- Modelled from the spec: `isSet()` of a derived property. -/
def RRectPropFromProps.isSet (self : RRectPropFromProps) : Bool := self._derivedValue.isSome

/-- Modelled from the spec: `getUnsafeDerivedValue()`, the cached pointer as it is. -/
def RRectPropFromProps.getUnsafeDerivedValue (self : RRectPropFromProps) : Option SkRRect :=
  self._derivedValue

/-- Modelled from the spec: `setDerivedValue`, which replaces the cache. -/
def RRectPropFromProps.setDerivedValue (self : RRectPropFromProps) (value : Option SkRRect) :
    Exec RRectPropFromProps :=
  ⟨[Event.setDerivedValue value], .ok { self with _derivedValue := value }⟩

/-- The body of `RRectPropFromProps::updateDerivedValue` (lines 149-158). The six
arguments are read in the order in which they are written. -/
def RRectPropFromProps.updateDerivedValue (self : RRectPropFromProps) :
    Exec RRectPropFromProps := do
  if (← Exec.andAlso self._x.isSet (Exec.andAlso self._y.isSet
        (Exec.andAlso self._width.isSet (Exec.andAlso self._height.isSet self._r.isSet)))) then
    let x ← Exec.lift (← self._x.value).getAsNumber
    let y ← Exec.lift (← self._y.value).getAsNumber
    let width ← Exec.lift (← self._width.value).getAsNumber
    let height ← Exec.lift (← self._height.value).getAsNumber
    let xRad ← Exec.lift (← self._r.value).getAsNumber
    let yRad ← Exec.lift (← self._r.value).getAsNumber
    self.setDerivedValue (some (SkRRect.MakeRectXY (SkRect.MakeXYWH x y width height) xRad yRad))
  else
    pure self

/-- The chain reader `RRectProps` (lines 172-194): its two child readers and, modelled
from the spec, the cache of the derived-property base class. -/
structure RRectProps where
  _rectProp : RRectProp
  _rectPropFromProps : RRectPropFromProps
  _derivedValue : Option SkRRect

/-- Modelled from the spec: `isSet()` of a derived property. -/
def RRectProps.isSet (self : RRectProps) : Bool := self._derivedValue.isSome

/-- Modelled from the spec: `setDerivedValue`, which replaces the cache. -/
def RRectProps.setDerivedValue (self : RRectProps) (value : Option SkRRect) : Exec RRectProps :=
  ⟨[Event.setDerivedValue value], .ok { self with _derivedValue := value }⟩

/-- A call of `isSet()` on a child reader, as seen from the reader that calls it. -/
def Exec.isSet (dep : Dep) (answer : Bool) : Exec Bool :=
  ⟨[Event.isSet dep answer], .ok answer⟩

/-- A call of `getUnsafeDerivedValue()` on a child reader, as seen from the caller. -/
def Exec.read (dep : Dep) (cached : Option SkRRect) : Exec (Option SkRRect) :=
  ⟨[Event.read dep], .ok cached⟩

/-- The body of `RRectProps::updateDerivedValue` (lines 181-189). -/
def RRectProps.updateDerivedValue (self : RRectProps) : Exec RRectProps := do
  if (← Exec.isSet Dep.rectProp self._rectProp.isSet) then
    self.setDerivedValue (← Exec.read Dep.rectProp self._rectProp.getUnsafeDerivedValue)
  else if (← Exec.isSet Dep.rectPropFromProps self._rectPropFromProps.isSet) then
    self.setDerivedValue
      (← Exec.read Dep.rectPropFromProps self._rectPropFromProps.getUnsafeDerivedValue)
  else
    self.setDerivedValue none

/-- The box reader `BoxProps` (lines 200-220): its raw property and, modelled from the
spec, the cache of the derived-property base class. -/
structure BoxProps where
  _boxProp : NodeProp
  _derivedValue : Option SkRRect

/-- Modelled from the spec: `isSet()` of a derived property. -/
def BoxProps.isSet (self : BoxProps) : Bool := self._derivedValue.isSome

/-- Modelled from the spec: `setDerivedValue`, which replaces the cache. -/
def BoxProps.setDerivedValue (self : BoxProps) (value : Option SkRRect) : Exec BoxProps :=
  ⟨[Event.setDerivedValue value], .ok { self with _derivedValue := value }⟩

/-- The body of `BoxProps::updateDerivedValue` (lines 208-216). The plain-rectangle
decoder `RectProp::processRect` lives in another header and is a parameter here. -/
def BoxProps.updateDerivedValue (processRect : JsiValue → Except JsiError (Option SkRect))
    (self : BoxProps) : Exec BoxProps := do
  let value ← self._boxProp.value
  let rect ← Exec.lift (processRect value)
  match rect with
  | some rect => self.setDerivedValue (some (SkRRect.MakeRect rect))
  | none => self.setDerivedValue (← Exec.lift (RRectProp.processRRect value))

/-- The composite example of the specification: x = 0, y = 0, width = 10, height = 10 and
r = 8, with a cache that may already hold a value. -/
def exampleFromProps (cache : Option SkRRect) : RRectPropFromProps :=
  { _x := ⟨PropNameX, some (.number 0)⟩, _y := ⟨PropNameY, some (.number 0)⟩,
    _width := ⟨PropNameWidth, some (.number 10)⟩, _height := ⟨PropNameHeight, some (.number 10)⟩,
    _r := ⟨PropNameR, some (.number 8)⟩, _derivedValue := cache }

/-- The gating example of the specification: only x, y and width are set, height and r
are unset. -/
def exampleGated (cache : Option SkRRect) : RRectPropFromProps :=
  { _x := ⟨PropNameX, some (.number 0)⟩, _y := ⟨PropNameY, some (.number 0)⟩,
    _width := ⟨PropNameWidth, some (.number 10)⟩, _height := ⟨PropNameHeight, none⟩,
    _r := ⟨PropNameR, none⟩, _derivedValue := cache }

/-- A leaf reader whose raw property `rrect` holds `current` (or nothing) and whose cache
holds `cache`. -/
def exampleLeaf (current : Option JsiValue) (cache : Option SkRRect) : RRectProp :=
  { _prop := ⟨"rrect", current⟩, _derivedValue := cache }

/-- A rounded rect used as a previously cached value in the examples. -/
def exampleCached : SkRRect := SkRRect.MakeRectXY (SkRect.MakeXYWH 1 2 3 4) 1 1

/-- A plain-rectangle decoder used to instantiate the decoder parameter of the box
reader in the examples: an object with numeric x, y, width, height is a rectangle, any
other value is no match. -/
def examplePlainRect (value : JsiValue) : Except JsiError (Option SkRect) :=
  match value.getValue PropNameX, value.getValue PropNameY, value.getValue PropNameWidth,
    value.getValue PropNameHeight with
  | .ok (.number x), .ok (.number y), .ok (.number w), .ok (.number h) =>
    .ok (some (SkRect.MakeXYWH x y w h))
  | _, _, _, _ => .ok none

/-- A value that is a plain rectangle: x = 1, y = 2, width = 3, height = 4. -/
def examplePlainValue : JsiValue :=
  .object [("x", .number 1), ("y", .number 2), ("width", .number 3), ("height", .number 4)]

/-- A box reader whose raw property `box` holds `current` (or nothing) and whose cache
holds `cache`. -/
def exampleBox (current : Option JsiValue) (cache : Option SkRRect) : BoxProps :=
  { _boxProp := ⟨"box", current⟩, _derivedValue := cache }

/-- The flat-object example of the specification:
rect (10, 20, 30, 40) with rx = 5 and ry = 5. -/
def exampleUniform : JsiValue :=
  .object [("rect", .object [("x", .number 10), ("y", .number 20), ("width", .number 30),
      ("height", .number 40)]), ("rx", .number 5), ("ry", .number 5)]

/-- The per-corner object of the specification with the four corner records given:
rect (0, 0, 100, 50) and the records `topLeft`, `topRight`, `bottomRight`, `bottomLeft`. -/
def exampleCorners (topLeft topRight bottomRight bottomLeft : SkPoint) : JsiValue :=
  .object [("rect", .object [("x", .number 0), ("y", .number 0), ("width", .number 100),
      ("height", .number 50)]),
    ("topLeft", .object [("x", .number topLeft.fX), ("y", .number topLeft.fY)]),
    ("topRight", .object [("x", .number topRight.fX), ("y", .number topRight.fY)]),
    ("bottomRight", .object [("x", .number bottomRight.fX), ("y", .number bottomRight.fY)]),
    ("bottomLeft", .object [("x", .number bottomLeft.fX), ("y", .number bottomLeft.fY)])]

/-- The input shape "a complete numeric `rect`": the value has a field `rect` whose
record has the numbers x, y, width, height. -/
def HasNumericRect (value : JsiValue) (x y w h : Number) : Prop :=
  ∃ rect, value.getValue PropNameRect = .ok rect
    ∧ rect.getValue PropNameX = .ok (.number x)
    ∧ rect.getValue PropNameY = .ok (.number y)
    ∧ rect.getValue PropNameWidth = .ok (.number w)
    ∧ rect.getValue PropNameHeight = .ok (.number h)

/-- The input shape "a corner record with numeric x, y": the value has a field `name`
whose record has the numbers `p.fX` at `x` and `p.fY` at `y`. -/
def HasCorner (value : JsiValue) (name : PropId) (p : SkPoint) : Prop :=
  ∃ corner, value.getValue name = .ok corner
    ∧ corner.getValue PropNameX = .ok (.number p.fX)
    ∧ corner.getValue PropNameY = .ok (.number p.fY)

/-- The input shape "has both rx and ry": both presence checks answer true. -/
def HasRxRy (value : JsiValue) : Prop :=
  value.hasValue PropNameRx = .ok true ∧ value.hasValue PropNameRy = .ok true

/-- The input shape "has all four of topLeft, topRight, bottomRight, bottomLeft": the
four presence checks answer true. -/
def HasAllCorners (value : JsiValue) : Prop :=
  value.hasValue PropNameTopLeft = .ok true ∧ value.hasValue PropNameTopRight = .ok true
    ∧ value.hasValue PropNameBottomRight = .ok true
    ∧ value.hasValue PropNameBottomLeft = .ok true

/-- The values whose shape the decoder does not recognise: a number, a string, the
undefined value, a host object that is not a rounded-rect handle, an object without
`rect`, and an object that has neither both of `rx`, `ry` nor all four corner fields. -/
def Unrecognized (value : JsiValue) : Prop :=
  value.getType = PropType.Number ∨ value.getType = PropType.String
    ∨ value.getType = PropType.Undefined
    ∨ (∃ h, value.getAsHostObject = .ok h ∧ dynamicPointerCastJsiSkRRect h = none)
    ∨ (value.getType = PropType.Object ∧ value.hasValue PropNameRect = .ok false)
    ∨ (value.getType = PropType.Object ∧ ¬ HasRxRy value ∧ ¬ HasAllCorners value)

/-- The number of `setDerivedValue` calls among the events of a run. -/
def setDerivedValueCalls : List Event → Nat
  | [] => 0
  | Event.setDerivedValue _ :: rest => setDerivedValueCalls rest + 1
  | _ :: rest => setDerivedValueCalls rest

/-- The arguments of the `setDerivedValue` calls among the events of a run, in the order
of the calls; `none` is a call with null, that is with no value. -/
def setDerivedValueArgs : List Event → List (Option SkRRect)
  | [] => []
  | Event.setDerivedValue value :: rest => value :: setDerivedValueArgs rest
  | _ :: rest => setDerivedValueArgs rest

/-- The guard of lines 150-151 as a condition on the state: all five raw properties of
the composite reader are set. -/
def RRectPropFromProps.allSet (self : RRectPropFromProps) : Bool :=
  self._x.current.isSome && self._y.current.isSome && self._width.current.isSome
    && self._height.current.isSome && self._r.current.isSome

/-- Whether every value read among the events follows an `isSet()` query of the same
dependency that answered true, either earlier among the events or in `seen`, the
dependencies already known to be set. -/
def readsGuardedFrom (seen : List Dep) : List Event → Bool
  | [] => true
  | Event.isSet dep true :: rest => readsGuardedFrom (dep :: seen) rest
  | Event.isSet _ false :: rest => readsGuardedFrom seen rest
  | Event.read dep :: rest => decide (dep ∈ seen) && readsGuardedFrom seen rest
  | Event.setDerivedValue _ :: rest => readsGuardedFrom seen rest

/-- Whether a run reads the value of a dependency only after `isSet()` of that same
dependency returned true in the same run. -/
def readsGuarded (events : List Event) : Bool := readsGuardedFrom [] events

/-! ## Change propagation between the readers -/

/-- Modelled from the spec: the reader whose `updateDerivedValue` a notification wave
invokes (the change notification of the derived-property base class is not part of the
header). -/
inductive Reader where
  | rrectProp
  | rrectPropFromProps
  | rrectProps
  deriving DecidableEq, Repr

/-- Modelled from the spec: a notification wave, synchronous and single-threaded: the
`updateDerivedValue` calls it made, in the order in which they ran (a call begins only
after the one before it returned), and how the wave ended. -/
structure Wave (α : Type) where
  calls : List Reader
  result : Except JsiError α

namespace Wave

/-- Modelled from the spec: a wave step that invokes no reader. -/
def ret {α : Type} (a : α) : Wave α := ⟨[], .ok a⟩

/-- Modelled from the spec: one synchronous invocation of `updateDerivedValue` of a reader. -/
def call {α : Type} (reader : Reader) (run : Exec α) : Wave α := ⟨[reader], run.result⟩

/-- Modelled from the spec: sequencing inside a wave, the next step starts only when the
step before it returned. -/
def andThen {α β : Type} (m : Wave α) (f : α → Wave β) : Wave β :=
  match m.result with
  | .ok a => ⟨m.calls ++ (f a).calls, (f a).result⟩
  | .error e => ⟨m.calls, .error e⟩

end Wave

/-- Modelled from the spec: the raw-property store binds `value` to the raw property
called `name`; a property of another name keeps its value. -/
def NodeProp.assign (p : NodeProp) (name : PropId) (value : Option JsiValue) : NodeProp :=
  if p.name = name then { p with current := value } else p

/-- Modelled from the spec: whether the leaf reader declared the raw property `name`
(line 38 declares the one named in the constructor). -/
def RRectProp.dependsOn (self : RRectProp) (name : PropId) : Bool :=
  decide (self._prop.name = name)

/-- Modelled from the spec: the leaf reader after the store bound `value` to `name`. -/
def RRectProp.assign (self : RRectProp) (name : PropId) (value : Option JsiValue) : RRectProp :=
  { self with _prop := self._prop.assign name value }

/-- Modelled from the spec: whether the composite reader declared the raw property `name`
(lines 142-146 declare five). -/
def RRectPropFromProps.dependsOn (self : RRectPropFromProps) (name : PropId) : Bool :=
  decide (self._x.name = name) || decide (self._y.name = name)
    || decide (self._width.name = name) || decide (self._height.name = name)
    || decide (self._r.name = name)

/-- Modelled from the spec: the composite reader after the store bound `value` to `name`. -/
def RRectPropFromProps.assign (self : RRectPropFromProps) (name : PropId)
    (value : Option JsiValue) : RRectPropFromProps :=
  { self with
    _x := self._x.assign name value, _y := self._y.assign name value,
    _width := self._width.assign name value, _height := self._height.assign name value,
    _r := self._r.assign name value }

/-- The raw properties that the constructor of the composite reader declares
(lines 142-146): `x`, `y`, `width`, `height` and `r`. -/
def RRectPropFromProps.Declared (self : RRectPropFromProps) : Prop :=
  self._x.name = PropNameX ∧ self._y.name = PropNameY ∧ self._width.name = PropNameWidth
    ∧ self._height.name = PropNameHeight ∧ self._r.name = PropNameR

/-- Modelled from the spec: the notification wave that a change of the raw property
`name` to `value` starts at a chain reader. Propagation is depth-first: each child reader
that declared the property recomputes once, and after the children returned the chain
reader, their dependent, recomputes once. A reader none of whose dependencies changed
does not run. -/
def RRectProps.rawPropertyChanged (self : RRectProps) (name : PropId)
    (value : Option JsiValue) : Wave RRectProps :=
  Wave.andThen
    (if self._rectProp.dependsOn name then
      Wave.call Reader.rrectProp (self._rectProp.assign name value).updateDerivedValue
    else Wave.ret (self._rectProp.assign name value))
    (fun leaf =>
      Wave.andThen
        (if self._rectPropFromProps.dependsOn name then
          Wave.call Reader.rrectPropFromProps
            (self._rectPropFromProps.assign name value).updateDerivedValue
        else Wave.ret (self._rectPropFromProps.assign name value))
        (fun comp =>
          if self._rectProp.dependsOn name || self._rectPropFromProps.dependsOn name then
            Wave.call Reader.rrectProps
              (RRectProps.updateDerivedValue
                { self with _rectProp := leaf, _rectPropFromProps := comp })
          else Wave.ret { self with _rectProp := leaf, _rectPropFromProps := comp }))

/-- A chain reader over a leaf reader for the property `rrect` and the composite example
of the specification, all of whose five raw properties are set. -/
def exampleChain (leafCurrent : Option JsiValue) (leafCache : Option SkRRect) : RRectProps :=
  { _rectProp := exampleLeaf leafCurrent leafCache,
    _rectPropFromProps :=
      exampleFromProps (some (SkRRect.MakeRectXY (SkRect.MakeXYWH 0 0 10 10) 8 8)),
    _derivedValue := some (SkRRect.MakeRectXY (SkRect.MakeXYWH 0 0 10 10) 8 8) }

/-- A value that has both shapes at once: rect (10, 20, 30, 40), rx = 5, ry = 5 and the
four corner records given. -/
def exampleBoth (topLeft topRight bottomRight bottomLeft : SkPoint) : JsiValue :=
  .object [("rect", .object [("x", .number 10), ("y", .number 20), ("width", .number 30),
      ("height", .number 40)]), ("rx", .number 5), ("ry", .number 5),
    ("topLeft", .object [("x", .number topLeft.fX), ("y", .number topLeft.fY)]),
    ("topRight", .object [("x", .number topRight.fX), ("y", .number topRight.fY)]),
    ("bottomRight", .object [("x", .number bottomRight.fX), ("y", .number bottomRight.fY)]),
    ("bottomLeft", .object [("x", .number bottomLeft.fX), ("y", .number bottomLeft.fY)])]

/-- A value with `rx`, `ry` and the four corner records whose `rect` record has x, y and
width but no height. -/
def exampleIncompleteRect : JsiValue :=
  .object [("rect", .object [("x", .number 10), ("y", .number 20), ("width", .number 30)]),
    ("rx", .number 5), ("ry", .number 5),
    ("topLeft", .object [("x", .number 1), ("y", .number 1)]),
    ("topRight", .object [("x", .number 2), ("y", .number 2)]),
    ("bottomRight", .object [("x", .number 3), ("y", .number 3)]),
    ("bottomLeft", .object [("x", .number 4), ("y", .number 4)])]

/-- A flat object whose six fields are all present, with `ry` holding `ry`. -/
def exampleFields (ry : JsiValue) : JsiValue :=
  .object [("rect", .object [("x", .number 10), ("y", .number 20), ("width", .number 30),
      ("height", .number 40)]), ("rx", .number 5), ("ry", ry)]

/-- The input shape "the `rect` record has all of x, y, width, height": the four presence
checks answer true. -/
def HasAllRectFields (rect : JsiValue) : Prop :=
  rect.hasValue PropNameX = .ok true ∧ rect.hasValue PropNameY = .ok true
    ∧ rect.hasValue PropNameWidth = .ok true ∧ rect.hasValue PropNameHeight = .ok true

/-- A per-corner object over rect (0, 0, 100, 50) whose `topLeft` record holds `topLeftX`
at `x` and 1 at `y`; the other three corner records are (2, 2), (3, 3), (4, 4). -/
def exampleCornerField (topLeftX : JsiValue) : JsiValue :=
  .object [("rect", .object [("x", .number 0), ("y", .number 0), ("width", .number 100),
      ("height", .number 50)]),
    ("topLeft", .object [("x", topLeftX), ("y", .number 1)]),
    ("topRight", .object [("x", .number 2), ("y", .number 2)]),
    ("bottomRight", .object [("x", .number 3), ("y", .number 3)]),
    ("bottomLeft", .object [("x", .number 4), ("y", .number 4)])]

/-! ## Facts about the accessors of the generic value -/

theorem except_ok_bind {ε α β : Type} (a : α) (f : α → Except ε β) :
    (Except.ok a >>= f) = f a := rfl

theorem except_error_bind {ε α β : Type} (e : ε) (f : α → Except ε β) :
    ((Except.error e : Except ε α) >>= f) = Except.error e := rfl

theorem except_map_ok {ε α β : Type} (a : α) (f : α → β) :
    f <$> (Except.ok a : Except ε α) = Except.ok (f a) := rfl

theorem except_map_error {ε α β : Type} (e : ε) (f : α → β) :
    f <$> (Except.error e : Except ε α) = Except.error e := rfl

theorem except_pure {ε α : Type} (a : α) :
    (pure a : Except ε α) = Except.ok a := rfl

theorem andAlso_ok_true (b : Except JsiError Bool) : andAlso (.ok true) b = b := rfl

theorem andAlso_ok_false (b : Except JsiError Bool) : andAlso (.ok false) b = .ok false := rfl

theorem JsiValue.getValue_ok {v w : JsiValue} {name : PropId}
    (h : v.getValue name = .ok w) :
    ∃ props, v = .object props ∧ JsiValue.find name props = some w := by
  cases v with
  | object props =>
    refine ⟨props, rfl, ?_⟩
    simp only [JsiValue.getValue] at h
    cases hf : JsiValue.find name props with
    | none => rw [hf] at h; cases h
    | some u => rw [hf] at h; cases h; rfl
  | _ => cases h

theorem JsiValue.hasValue_of_getValue {v w : JsiValue} {name : PropId}
    (h : v.getValue name = .ok w) : v.hasValue name = .ok true := by
  obtain ⟨props, rfl, hf⟩ := JsiValue.getValue_ok h
  simp [JsiValue.hasValue, hf]

theorem JsiValue.getType_of_getValue {v w : JsiValue} {name : PropId}
    (h : v.getValue name = .ok w) : v.getType = PropType.Object := by
  obtain ⟨props, rfl, _⟩ := JsiValue.getValue_ok h
  rfl

theorem andAlso_rx_ry_of_not_both (props : List (PropId × JsiValue))
    (hno : ¬ HasRxRy (.object props)) :
    andAlso ((JsiValue.object props).hasValue PropNameRx)
      ((JsiValue.object props).hasValue PropNameRy) = .ok false := by
  unfold HasRxRy at hno
  simp only [JsiValue.hasValue] at hno ⊢
  cases h1 : (JsiValue.find PropNameRx props).isSome <;>
    cases h2 : (JsiValue.find PropNameRy props).isSome <;>
    simp_all [andAlso]

theorem processRRect_corners_eq (value : JsiValue) (x y w h : Number)
    (tl tr br bl : SkPoint)
    (hrect : HasNumericRect value x y w h) (hno : ¬ HasRxRy value)
    (htl : HasCorner value PropNameTopLeft tl) (htr : HasCorner value PropNameTopRight tr)
    (hbr : HasCorner value PropNameBottomRight br)
    (hbl : HasCorner value PropNameBottomLeft bl) :
    RRectProp.processRRect value
      = .ok (some (SkRRect.MakeEmpty.setRectRadii (SkRect.MakeXYWH x y w h) [tl, tr, br, bl])) := by
  obtain ⟨rect, hrect, hx, hy, hw, hh⟩ := hrect
  obtain ⟨ctl, htl, htlx, htly⟩ := htl
  obtain ⟨ctr, htr, htrx, htry⟩ := htr
  obtain ⟨cbr, hbr, hbrx, hbry⟩ := hbr
  obtain ⟨cbl, hbl, hblx, hbly⟩ := hbl
  have hty := JsiValue.getType_of_getValue hrect
  have hne : PropType.Object ≠ PropType.HostObject := by decide
  have hg : andAlso (value.hasValue PropNameRx) (value.hasValue PropNameRy) = .ok false := by
    obtain ⟨props, rfl, _⟩ := JsiValue.getValue_ok hrect
    exact andAlso_rx_ry_of_not_both props hno
  have h1 := JsiValue.hasValue_of_getValue hrect
  have h2 := JsiValue.hasValue_of_getValue htl
  have h3 := JsiValue.hasValue_of_getValue htr
  have h4 := JsiValue.hasValue_of_getValue hbr
  have h5 := JsiValue.hasValue_of_getValue hbl
  have h6 := JsiValue.hasValue_of_getValue hx
  have h7 := JsiValue.hasValue_of_getValue hy
  have h8 := JsiValue.hasValue_of_getValue hw
  have h9 := JsiValue.hasValue_of_getValue hh
  simp only [RRectProp.processRRect, hty, hne, if_false, if_true, h1, hg, andAlso_ok_true,
    except_ok_bind, except_map_ok, except_pure, h2, h3, h4, h5, h6, h7, h8, h9,
    hrect, hx, hy, hw, hh, htl, htlx, htly, htr, htrx, htry, hbr, hbrx, hbry,
    hbl, hblx, hbly, JsiValue.getAsNumber, SkPoint.Make, List.nil_append, List.cons_append,
    Bool.false_eq_true]

theorem exampleCorners_hasNumericRect (tl tr br bl : SkPoint) :
    HasNumericRect (exampleCorners tl tr br bl) 0 0 100 50 :=
  ⟨_, rfl, rfl, rfl, rfl, rfl⟩

theorem exampleCorners_not_hasRxRy (tl tr br bl : SkPoint) :
    ¬ HasRxRy (exampleCorners tl tr br bl) := by
  intro h
  have h1 : Except.ok false = (Except.ok true : Except JsiError Bool) := h.1
  cases h1

theorem exampleCorners_topLeft (tl tr br bl : SkPoint) :
    HasCorner (exampleCorners tl tr br bl) PropNameTopLeft tl :=
  ⟨_, rfl, rfl, rfl⟩

theorem exampleCorners_topRight (tl tr br bl : SkPoint) :
    HasCorner (exampleCorners tl tr br bl) PropNameTopRight tr :=
  ⟨_, rfl, rfl, rfl⟩

theorem exampleCorners_bottomRight (tl tr br bl : SkPoint) :
    HasCorner (exampleCorners tl tr br bl) PropNameBottomRight br :=
  ⟨_, rfl, rfl, rfl⟩

theorem exampleCorners_bottomLeft (tl tr br bl : SkPoint) :
    HasCorner (exampleCorners tl tr br bl) PropNameBottomLeft bl :=
  ⟨_, rfl, rfl, rfl⟩

/-! ## The value decoder: flat object with uniform radius -/

/-- C1: an object value with a `rect` record holding numeric x, y, width, height and with
numeric top-level `rx`, `ry` decodes to a rounded rect (not to no match) whose rectangle
is (x, y, width, height) and whose radius pair at every corner is (rx, ry). -/
theorem processRRect_flat_uniform (value rect : JsiValue) (x y w h rx ry : Number)
    (hrect : value.getValue PropNameRect = .ok rect)
    (hx : rect.getValue PropNameX = .ok (.number x))
    (hy : rect.getValue PropNameY = .ok (.number y))
    (hw : rect.getValue PropNameWidth = .ok (.number w))
    (hh : rect.getValue PropNameHeight = .ok (.number h))
    (hrx : value.getValue PropNameRx = .ok (.number rx))
    (hry : value.getValue PropNameRy = .ok (.number ry)) :
    ∃ r, RRectProp.processRRect value = .ok (some r)
      ∧ r = SkRRect.MakeRectXY (SkRect.MakeXYWH x y w h) rx ry
      ∧ r.rect = ⟨x, y, w, h⟩
      ∧ r.getSimpleRadii = ⟨rx, ry⟩
      ∧ ∀ corner, r.radii corner = ⟨rx, ry⟩ := by
  refine ⟨SkRRect.MakeRectXY (SkRect.MakeXYWH x y w h) rx ry, ?_, rfl, rfl, rfl, ?_⟩
  · have hty := JsiValue.getType_of_getValue hrect
    have hne : PropType.Object ≠ PropType.HostObject := by decide
    simp only [RRectProp.processRRect, hty, hrect, hx, hy, hw, hh, hrx, hry, andAlso,
      JsiValue.hasValue_of_getValue hrect, JsiValue.hasValue_of_getValue hx,
      JsiValue.hasValue_of_getValue hy, JsiValue.hasValue_of_getValue hw,
      JsiValue.hasValue_of_getValue hh, JsiValue.hasValue_of_getValue hrx,
      JsiValue.hasValue_of_getValue hry, JsiValue.getAsNumber, except_ok_bind,
      except_map_ok, except_pure, if_true, if_false, hne]
  · intro corner
    unfold SkRRect.radii SkRRect.MakeRectXY
    split <;> rfl

/-- C1 at the example of the specification: rect (10, 20, 30, 40) with rx = ry = 5. -/
theorem processRRect_flat_uniform_witness :
    ∃ r, RRectProp.processRRect exampleUniform = .ok (some r)
      ∧ r = SkRRect.MakeRectXY (SkRect.MakeXYWH 10 20 30 40) 5 5
      ∧ r.rect = ⟨10, 20, 30, 40⟩
      ∧ r.getSimpleRadii = ⟨5, 5⟩
      ∧ ∀ corner, r.radii corner = ⟨5, 5⟩ :=
  processRRect_flat_uniform exampleUniform
    (.object [("x", .number 10), ("y", .number 20), ("width", .number 30),
      ("height", .number 40)]) 10 20 30 40 5 5 rfl rfl rfl rfl rfl rfl rfl

/-! ## The value decoder: flat object with four corner records -/

/-- C2: an object value with a complete numeric `rect`, four corner records with numeric
x, y and without both `rx` and `ry` decodes through the per-corner constructor, which
receives the radii in the order [topLeft, topRight, bottomRight, bottomLeft]: the result
has them at positions 0, 1, 2, 3. Two such values over the same rectangle whose four
corner values are not the same in the same order (as after exchanging two labels with
different values) decode to different results. -/
theorem processRRect_corner_order (value : JsiValue) (x y w h : Number)
    (tl tr br bl : SkPoint)
    (hrect : HasNumericRect value x y w h) (hno : ¬ HasRxRy value)
    (htl : HasCorner value PropNameTopLeft tl) (htr : HasCorner value PropNameTopRight tr)
    (hbr : HasCorner value PropNameBottomRight br)
    (hbl : HasCorner value PropNameBottomLeft bl) :
    ∃ r, RRectProp.processRRect value = .ok (some r)
      ∧ r = SkRRect.MakeEmpty.setRectRadii (SkRect.MakeXYWH x y w h) [tl, tr, br, bl]
      ∧ r.rect = ⟨x, y, w, h⟩
      ∧ r.radii 0 = tl ∧ r.radii 1 = tr ∧ r.radii 2 = br ∧ r.radii 3 = bl
      ∧ ∀ (other : JsiValue) (tl2 tr2 br2 bl2 : SkPoint),
          HasNumericRect other x y w h → ¬ HasRxRy other →
          HasCorner other PropNameTopLeft tl2 → HasCorner other PropNameTopRight tr2 →
          HasCorner other PropNameBottomRight br2 → HasCorner other PropNameBottomLeft bl2 →
          (tl2, tr2, br2, bl2) ≠ (tl, tr, br, bl) →
          RRectProp.processRRect other ≠ RRectProp.processRRect value := by
  have hv := processRRect_corners_eq value x y w h tl tr br bl hrect hno htl htr hbr hbl
  refine ⟨_, hv, rfl, rfl, rfl, rfl, rfl, rfl, ?_⟩
  intro other tl2 tr2 br2 bl2 h1 h2 h3 h4 h5 h6 hne heq
  rw [hv, processRRect_corners_eq other x y w h tl2 tr2 br2 bl2 h1 h2 h3 h4 h5 h6] at heq
  apply hne
  have hr := Option.some.inj (Except.ok.inj heq)
  simp only [SkRRect.setRectRadii, List.getD_cons_zero, List.getD_cons_succ,
    SkRRect.mk.injEq] at hr
  obtain ⟨_, e1, e2, e3, e4⟩ := hr
  rw [e1, e2, e3, e4]

/-- C2 at the example of the specification: rect (0, 0, 100, 50) with topLeft = (1, 1),
topRight = (2, 2), bottomRight = (3, 3), bottomLeft = (4, 4) has the radii (1, 1), (2, 2),
(3, 3), (4, 4) at positions 0..3, and exchanging the values of topLeft and topRight
changes the result. -/
theorem processRRect_corner_order_witness :
    ∃ r, RRectProp.processRRect (exampleCorners ⟨1, 1⟩ ⟨2, 2⟩ ⟨3, 3⟩ ⟨4, 4⟩) = .ok (some r)
      ∧ r.rect = ⟨0, 0, 100, 50⟩
      ∧ r.radii 0 = ⟨1, 1⟩ ∧ r.radii 1 = ⟨2, 2⟩ ∧ r.radii 2 = ⟨3, 3⟩ ∧ r.radii 3 = ⟨4, 4⟩
      ∧ RRectProp.processRRect (exampleCorners ⟨2, 2⟩ ⟨1, 1⟩ ⟨3, 3⟩ ⟨4, 4⟩)
          ≠ RRectProp.processRRect (exampleCorners ⟨1, 1⟩ ⟨2, 2⟩ ⟨3, 3⟩ ⟨4, 4⟩) := by
  obtain ⟨r, h1, _, h3, h4, h5, h6, h7, h8⟩ :=
    processRRect_corner_order (exampleCorners ⟨1, 1⟩ ⟨2, 2⟩ ⟨3, 3⟩ ⟨4, 4⟩) 0 0 100 50
      ⟨1, 1⟩ ⟨2, 2⟩ ⟨3, 3⟩ ⟨4, 4⟩
      (exampleCorners_hasNumericRect _ _ _ _) (exampleCorners_not_hasRxRy _ _ _ _)
      (exampleCorners_topLeft _ _ _ _) (exampleCorners_topRight _ _ _ _)
      (exampleCorners_bottomRight _ _ _ _) (exampleCorners_bottomLeft _ _ _ _)
  refine ⟨r, h1, h3, h4, h5, h6, h7, ?_⟩
  exact h8 (exampleCorners ⟨2, 2⟩ ⟨1, 1⟩ ⟨3, 3⟩ ⟨4, 4⟩) ⟨2, 2⟩ ⟨1, 1⟩ ⟨3, 3⟩ ⟨4, 4⟩
    (exampleCorners_hasNumericRect _ _ _ _) (exampleCorners_not_hasRxRy _ _ _ _)
    (exampleCorners_topLeft _ _ _ _) (exampleCorners_topRight _ _ _ _)
    (exampleCorners_bottomRight _ _ _ _) (exampleCorners_bottomLeft _ _ _ _) (by decide)

/-- Exchanging the values of any two of the four corner labels of the example of the
specification changes the decoded result (all six exchanges, by evaluation). -/
theorem exampleCorners_exchange_differs :
    let p1 : SkPoint := ⟨1, 1⟩
    let p2 : SkPoint := ⟨2, 2⟩
    let p3 : SkPoint := ⟨3, 3⟩
    let p4 : SkPoint := ⟨4, 4⟩
    let base := RRectProp.processRRect (exampleCorners p1 p2 p3 p4)
    RRectProp.processRRect (exampleCorners p2 p1 p3 p4) ≠ base
      ∧ RRectProp.processRRect (exampleCorners p3 p2 p1 p4) ≠ base
      ∧ RRectProp.processRRect (exampleCorners p4 p2 p3 p1) ≠ base
      ∧ RRectProp.processRRect (exampleCorners p1 p3 p2 p4) ≠ base
      ∧ RRectProp.processRRect (exampleCorners p1 p4 p3 p2) ≠ base
      ∧ RRectProp.processRRect (exampleCorners p1 p2 p4 p3) ≠ base := by
  decide

/-! ## The composite reader -/

/-- C4: a composite reader whose raw properties x, y, width, height, r are all set to
numbers stores the rounded rect with rectangle (x, y, width, height) and with x-radius
and y-radius both equal to r; the call returns normally. -/
theorem fromProps_update_all_set (self : RRectPropFromProps) (x y w h r : Number)
    (hx : self._x.current = some (.number x)) (hy : self._y.current = some (.number y))
    (hw : self._width.current = some (.number w))
    (hh : self._height.current = some (.number h))
    (hr : self._r.current = some (.number r)) :
    ∃ s, self.updateDerivedValue.result = .ok s
      ∧ s._derivedValue = some (SkRRect.MakeRectXY (SkRect.MakeXYWH x y w h) r r)
      ∧ s.isSet = true
      ∧ (∀ v, s._derivedValue = some v →
          v.rect = ⟨x, y, w, h⟩ ∧ v.getSimpleRadii.x = r ∧ v.getSimpleRadii.y = r) := by
  obtain ⟨⟨nx, cx⟩, ⟨ny, cy⟩, ⟨nw, cw⟩, ⟨nh, ch⟩, ⟨nr, cr⟩, cache⟩ := self
  simp only at hx hy hw hh hr
  subst hx hy hw hh hr
  refine ⟨_, rfl, rfl, rfl, ?_⟩
  intro v hv
  cases hv
  exact ⟨rfl, rfl, rfl⟩

/-- C4 at the example of the specification: x = 0, y = 0, width = 10, height = 10, r = 8
stores rectangle (0, 0, 10, 10) with the radius pair (8, 8). -/
theorem fromProps_update_all_set_witness :
    ∃ s, (exampleFromProps none).updateDerivedValue.result = .ok s
      ∧ s._derivedValue = some (SkRRect.MakeRectXY (SkRect.MakeXYWH 0 0 10 10) 8 8)
      ∧ s.isSet = true
      ∧ (∀ v, s._derivedValue = some v →
          v.rect = ⟨0, 0, 10, 10⟩ ∧ v.getSimpleRadii.x = 8 ∧ v.getSimpleRadii.y = 8) :=
  fromProps_update_all_set (exampleFromProps none) 0 0 10 10 8 rfl rfl rfl rfl rfl

/-- C5: when at least one of the five raw properties x, y, width, height, r is unset, the
composite reader returns normally with its state (cache and `isSet()` included) exactly
as before the call, reads the value of no raw property and calls `setDerivedValue` not
at all. -/
theorem fromProps_update_some_unset (self : RRectPropFromProps)
    (hun : self._x.current = none ∨ self._y.current = none ∨ self._width.current = none
      ∨ self._height.current = none ∨ self._r.current = none) :
    self.updateDerivedValue.result = .ok self
      ∧ (∀ s, self.updateDerivedValue.result = .ok s →
          s._derivedValue = self._derivedValue ∧ s.isSet = self.isSet)
      ∧ (∀ dep, Event.read dep ∉ self.updateDerivedValue.events)
      ∧ (∀ v, Event.setDerivedValue v ∉ self.updateDerivedValue.events) := by
  have key : self.updateDerivedValue.result = .ok self
      ∧ (∀ dep, Event.read dep ∉ self.updateDerivedValue.events)
      ∧ (∀ v, Event.setDerivedValue v ∉ self.updateDerivedValue.events) := by
    obtain ⟨⟨nx, cx⟩, ⟨ny, cy⟩, ⟨nw, cw⟩, ⟨nh, ch⟩, ⟨nr, cr⟩, cache⟩ := self
    simp only at hun
    cases cx with
    | none =>
      refine ⟨rfl, fun d hm => ?_, fun v hm => ?_⟩ <;>
        · change _ ∈ [Event.isSet _ _] at hm
          simp at hm
    | some vx =>
    cases cy with
    | none =>
      refine ⟨rfl, fun d hm => ?_, fun v hm => ?_⟩ <;>
        · change _ ∈ [Event.isSet _ _, Event.isSet _ _] at hm
          simp at hm
    | some vy =>
    cases cw with
    | none =>
      refine ⟨rfl, fun d hm => ?_, fun v hm => ?_⟩ <;>
        · change _ ∈ [Event.isSet _ _, Event.isSet _ _, Event.isSet _ _] at hm
          simp at hm
    | some vw =>
    cases ch with
    | none =>
      refine ⟨rfl, fun d hm => ?_, fun v hm => ?_⟩ <;>
        · change _ ∈ [Event.isSet _ _, Event.isSet _ _, Event.isSet _ _, Event.isSet _ _] at hm
          simp at hm
    | some vh =>
    cases cr with
    | none =>
      refine ⟨rfl, fun d hm => ?_, fun v hm => ?_⟩ <;>
        · change _ ∈ [Event.isSet _ _, Event.isSet _ _, Event.isSet _ _, Event.isSet _ _,
            Event.isSet _ _] at hm
          simp at hm
    | some vr => simp at hun
  refine ⟨key.1, ?_, key.2.1, key.2.2⟩
  intro s hs
  rw [key.1] at hs
  cases hs
  exact ⟨rfl, rfl⟩

/-- C5 at the example of the specification: with only x, y, width set (height and r
unset) a reader that cached a rounded rect before keeps exactly that state. -/
theorem fromProps_update_some_unset_witness :
    (exampleGated (some exampleCached)).updateDerivedValue.result
        = .ok (exampleGated (some exampleCached))
      ∧ (∀ s, (exampleGated (some exampleCached)).updateDerivedValue.result = .ok s →
          s._derivedValue = some exampleCached
            ∧ s.isSet = (exampleGated (some exampleCached)).isSet)
      ∧ (∀ dep, Event.read dep ∉ (exampleGated (some exampleCached)).updateDerivedValue.events)
      ∧ (∀ v, Event.setDerivedValue v ∉
          (exampleGated (some exampleCached)).updateDerivedValue.events) :=
  fromProps_update_some_unset (exampleGated (some exampleCached))
    (Or.inr (Or.inr (Or.inr (Or.inl rfl))))

/-! ## The leaf reader -/

theorem rrectProp_result_eq (name : PropId) (v : JsiValue) (cache : Option SkRRect) :
    (RRectProp.updateDerivedValue ⟨⟨name, some v⟩, cache⟩).result
      = match RRectProp.processRRect v with
        | .ok o => .ok ⟨⟨name, some v⟩, o⟩
        | .error e => .error e := by
  simp only [RRectProp.updateDerivedValue, bind, Exec.andThen, NodeProp.isSet, NodeProp.value,
    Exec.lift, Option.isSome, if_true, RRectProp.setDerivedValue]
  cases RRectProp.processRRect v <;> rfl

/-- C6: a leaf reader whose raw property is set to `v` makes its cache equal to
`processRRect(v)`: whatever the decoder returns is stored, and when the decoder returns
no match the call still returns normally, the cache becomes empty and `isSet()` becomes
false, whatever the cache held before. (A fatal error of the decoder is passed on.) -/
theorem rrectProp_update_set (self : RRectProp) (v : JsiValue)
    (hset : self._prop.current = some v) :
    (∀ o, RRectProp.processRRect v = .ok o →
        self.updateDerivedValue.result = .ok { self with _derivedValue := o })
      ∧ (RRectProp.processRRect v = .ok none →
        ∃ s, self.updateDerivedValue.result = .ok s ∧ s._derivedValue = none
          ∧ s.isSet = false)
      ∧ (∀ e, RRectProp.processRRect v = .error e →
        self.updateDerivedValue.result = .error e) := by
  obtain ⟨⟨name, current⟩, cache⟩ := self
  simp only at hset
  subst hset
  refine ⟨fun o ho => ?_, fun ho => ⟨⟨⟨name, some v⟩, none⟩, ?_, rfl, rfl⟩, fun e he => ?_⟩
  · rw [rrectProp_result_eq, ho]
  · rw [rrectProp_result_eq, ho]
  · rw [rrectProp_result_eq, he]

/-- C6 at an example: a leaf reader that cached a rounded rect and whose raw property
now holds the number 3 (no recognised shape) ends with an empty cache, without error. -/
theorem rrectProp_update_set_witness :
    (∀ o, RRectProp.processRRect (.number 3) = .ok o →
        (exampleLeaf (some (.number 3)) (some exampleCached)).updateDerivedValue.result
          = .ok { exampleLeaf (some (.number 3)) (some exampleCached) with _derivedValue := o })
      ∧ (RRectProp.processRRect (.number 3) = .ok none →
        ∃ s, (exampleLeaf (some (.number 3)) (some exampleCached)).updateDerivedValue.result
            = .ok s ∧ s._derivedValue = none ∧ s.isSet = false)
      ∧ (∀ e, RRectProp.processRRect (.number 3) = .error e →
        (exampleLeaf (some (.number 3)) (some exampleCached)).updateDerivedValue.result
          = .error e) :=
  rrectProp_update_set (exampleLeaf (some (.number 3)) (some exampleCached)) (.number 3) rfl

/-- The example of C6 evaluated: the decoder answers no match on the number 3 and the
reader that held a rounded rect is unset afterwards. -/
theorem rrectProp_no_match_example :
    RRectProp.processRRect (.number 3) = .ok none
      ∧ (exampleLeaf (some (.number 3)) (some exampleCached)).isSet = true
      ∧ (exampleLeaf (some (.number 3)) (some exampleCached)).updateDerivedValue.result
          = .ok (exampleLeaf (some (.number 3)) none) :=
  ⟨rfl, rfl, rfl⟩

/-- C7: a leaf reader whose raw property is unset returns normally with its state (cache
and `isSet()` included) exactly as before the call: a cached rounded rect is still
reported and a never-computed reader stays unset. It only asks whether the raw property
is set. -/
theorem rrectProp_update_unset (self : RRectProp) (hunset : self._prop.current = none) :
    self.updateDerivedValue.result = .ok self
      ∧ (∀ s, self.updateDerivedValue.result = .ok s →
          s._derivedValue = self._derivedValue ∧ s.isSet = self.isSet)
      ∧ self.updateDerivedValue.events = [Event.isSet (Dep.raw self._prop.name) false] := by
  obtain ⟨⟨name, current⟩, cache⟩ := self
  simp only at hunset
  subst hunset
  refine ⟨rfl, ?_, rfl⟩
  intro s hs
  cases hs
  exact ⟨rfl, rfl⟩

/-- C7 at an example: a leaf reader that cached a rounded rect and whose raw property is
unset still reports that rounded rect. -/
theorem rrectProp_update_unset_witness :
    (exampleLeaf none (some exampleCached)).updateDerivedValue.result
        = .ok (exampleLeaf none (some exampleCached))
      ∧ (∀ s, (exampleLeaf none (some exampleCached)).updateDerivedValue.result = .ok s →
          s._derivedValue = some exampleCached
            ∧ s.isSet = (exampleLeaf none (some exampleCached)).isSet)
      ∧ (exampleLeaf none (some exampleCached)).updateDerivedValue.events
          = [Event.isSet (Dep.raw "rrect") false] :=
  rrectProp_update_unset (exampleLeaf none (some exampleCached)) rfl

/-! ## The chain reader -/

/-- C3: for every state of the leaf reader and of the composite reader, the chain reader
returns normally with its cache equal to the cache of the leaf reader when the leaf
reader is set (whatever the composite reader holds), else to the cache of the composite
reader when that one is set, else empty; so afterwards the chain reader is set if and
only if the leaf reader or the composite reader is set. The child readers are not
changed. -/
theorem rrectProps_update (self : RRectProps) :
    ∃ s, self.updateDerivedValue.result = .ok s
      ∧ s._derivedValue =
          (if self._rectProp.isSet = true then self._rectProp._derivedValue
           else if self._rectPropFromProps.isSet = true then
             self._rectPropFromProps._derivedValue
           else none)
      ∧ (s.isSet = true ↔
          (self._rectProp.isSet = true ∨ self._rectPropFromProps.isSet = true))
      ∧ s._rectProp = self._rectProp ∧ s._rectPropFromProps = self._rectPropFromProps := by
  obtain ⟨⟨prop, leafCache⟩, ⟨px, py, pw, ph, pr, compCache⟩, cache⟩ := self
  cases leafCache with
  | some a => exact ⟨_, rfl, rfl, by simp [RRectProps.isSet, RRectProp.isSet,
    RRectProp.getUnsafeDerivedValue], rfl, rfl⟩
  | none =>
    cases compCache with
    | some b =>
      exact ⟨_, rfl, rfl, by simp [RRectProps.isSet, RRectProp.isSet,
        RRectPropFromProps.isSet, RRectPropFromProps.getUnsafeDerivedValue], rfl, rfl⟩
    | none =>
      exact ⟨_, rfl, rfl, by simp [RRectProps.isSet, RRectProp.isSet,
        RRectPropFromProps.isSet, RRectPropFromProps.getUnsafeDerivedValue], rfl, rfl⟩

/-! ## The value decoder: unrecognised shapes and host objects -/

theorem processRRect_object_no_guard (props : List (PropId × JsiValue))
    (h1 : andAlso ((JsiValue.object props).hasValue PropNameRect)
      (andAlso ((JsiValue.object props).hasValue PropNameRx)
        ((JsiValue.object props).hasValue PropNameRy)) = .ok false)
    (h2 : andAlso ((JsiValue.object props).hasValue PropNameRect)
      (andAlso ((JsiValue.object props).hasValue PropNameTopLeft)
      (andAlso ((JsiValue.object props).hasValue PropNameTopRight)
      (andAlso ((JsiValue.object props).hasValue PropNameBottomRight)
        ((JsiValue.object props).hasValue PropNameBottomLeft)))) = .ok false) :
    RRectProp.processRRect (.object props) = .ok none := by
  have hne : PropType.Object ≠ PropType.HostObject := by decide
  simp only [RRectProp.processRRect, JsiValue.getType, hne, if_false, if_true, h1, h2,
    except_ok_bind, except_pure, Bool.false_eq_true]

/-- C8: the decoder returns no match, and raises no error, on every value whose shape is
not recognised: every number, string and undefined value, every host object that does
not downcast to a rounded-rect handle, every object without `rect`, and every object
that has neither both of `rx`, `ry` nor all four of `topLeft`, `topRight`, `bottomRight`,
`bottomLeft`. -/
theorem processRRect_unrecognized (value : JsiValue) (hshape : Unrecognized value) :
    RRectProp.processRRect value = .ok none := by
  cases value with
  | undefined => rfl
  | number n => rfl
  | string str => rfl
  | hostObject ho =>
    rcases hshape with h | h | h | ⟨h, hh, hc⟩ | ⟨h, _⟩ | ⟨h, _⟩
    · cases h
    · cases h
    · cases h
    · cases hh
      cases ho with
      | jsiSkRRect handle => cases hc
      | other id => rfl
    · cases h
    · cases h
  | object props =>
    rcases hshape with h | h | h | ⟨h, hh, _⟩ | ⟨_, hr⟩ | ⟨_, hxy, hco⟩
    · cases h
    · cases h
    · cases h
    · cases hh
    · apply processRRect_object_no_guard <;> rw [hr] <;> rfl
    · apply processRRect_object_no_guard
      · rw [andAlso_rx_ry_of_not_both props hxy]
        simp only [JsiValue.hasValue]
        cases (JsiValue.find PropNameRect props).isSome <;> rfl
      · unfold HasAllCorners at hco
        simp only [JsiValue.hasValue] at hco ⊢
        cases (JsiValue.find PropNameRect props).isSome <;>
          cases h1 : (JsiValue.find PropNameTopLeft props).isSome <;>
          cases h2 : (JsiValue.find PropNameTopRight props).isSome <;>
          cases h3 : (JsiValue.find PropNameBottomRight props).isSome <;>
          cases h4 : (JsiValue.find PropNameBottomLeft props).isSome <;>
          simp_all [andAlso]

/-- C8 at an example: an object that has `rect` and `rx` but neither `ry` nor the corner
fields is no match. -/
theorem processRRect_unrecognized_witness :
    RRectProp.processRRect
      (.object [("rect", .object [("x", .number 1)]), ("rx", .number 2)]) = .ok none :=
  processRRect_unrecognized
    (.object [("rect", .object [("x", .number 1)]), ("rx", .number 2)])
    (Or.inr (Or.inr (Or.inr (Or.inr (Or.inr
      ⟨rfl, fun h => Bool.noConfusion (Except.ok.inj h.2),
        fun h => Bool.noConfusion (Except.ok.inj h.1)⟩)))))

/-- C9: a host-object value that downcasts to a rounded-rect handle decodes to the
rounded rect built by the uniform-radius constructor from the bounding rectangle of the
handle and the x and y components of its simple radius pair; the other three corner
radii of the handle do not enter the result, whose four corners all carry that pair. -/
theorem processRRect_host_object (value : JsiValue) (ho : HostObject) (handle : JsiSkRRect)
    (hho : value.getAsHostObject = .ok ho)
    (hcast : dynamicPointerCastJsiSkRRect ho = some handle) :
    ∃ r, RRectProp.processRRect value = .ok (some r)
      ∧ r = SkRRect.MakeRectXY handle.getObject.rect handle.getObject.getSimpleRadii.x
          handle.getObject.getSimpleRadii.y
      ∧ r.rect = handle.getObject.rect
      ∧ ∀ corner, r.radii corner = handle.getObject.getSimpleRadii := by
  cases value with
  | hostObject h =>
    cases hho
    cases ho with
    | other id => cases hcast
    | jsiSkRRect h2 =>
      cases hcast
      refine ⟨_, rfl, rfl, rfl, ?_⟩
      intro corner
      unfold SkRRect.radii SkRRect.MakeRectXY
      split <;> rfl
  | undefined => cases hho
  | number n => cases hho
  | string str => cases hho
  | object props => cases hho

/-- C9 at an example: a handle with rectangle (0, 0, 100, 50) and the corner radii (1, 1),
(2, 2), (3, 3), (4, 4) decodes to the uniform rounded rect with radius pair (1, 1). -/
theorem processRRect_host_object_witness :
    ∃ r, RRectProp.processRRect (.hostObject (.jsiSkRRect
          ⟨⟨⟨0, 0, 100, 50⟩, ⟨1, 1⟩, ⟨2, 2⟩, ⟨3, 3⟩, ⟨4, 4⟩⟩⟩)) = .ok (some r)
      ∧ r = SkRRect.MakeRectXY ⟨0, 0, 100, 50⟩ 1 1
      ∧ r.rect = ⟨0, 0, 100, 50⟩
      ∧ ∀ corner, r.radii corner = ⟨1, 1⟩ :=
  processRRect_host_object _ (.jsiSkRRect ⟨⟨⟨0, 0, 100, 50⟩, ⟨1, 1⟩, ⟨2, 2⟩, ⟨3, 3⟩, ⟨4, 4⟩⟩⟩)
    ⟨⟨⟨0, 0, 100, 50⟩, ⟨1, 1⟩, ⟨2, 2⟩, ⟨3, 3⟩, ⟨4, 4⟩⟩⟩ rfl rfl

/-! ## The box reader -/

theorem boxProps_result_eq (processRect : JsiValue → Except JsiError (Option SkRect))
    (name : PropId) (v : JsiValue) (cache : Option SkRRect) :
    (BoxProps.updateDerivedValue processRect ⟨⟨name, some v⟩, cache⟩).result
      = match processRect v with
        | .ok (some rect) => .ok ⟨⟨name, some v⟩, some (SkRRect.MakeRect rect)⟩
        | .ok none =>
          match RRectProp.processRRect v with
          | .ok o => .ok ⟨⟨name, some v⟩, o⟩
          | .error e => .error e
        | .error e => .error e := by
  simp only [BoxProps.updateDerivedValue, bind, Exec.andThen, NodeProp.value, Exec.lift,
    BoxProps.setDerivedValue]
  cases processRect v with
  | error e => rfl
  | ok o =>
    cases o with
    | some rect => rfl
    | none => cases RRectProp.processRRect v <;> rfl

/-- C10: for a box reader whose raw property holds `v`, and for every plain-rectangle
decoder: when the plain-rectangle decode of `v` succeeds the reader stores the rounded
rect with zero radii made from that rectangle (whatever the rounded-rect decoder would
answer on `v`); when the plain-rectangle decode is no match the reader stores what
`processRRect(v)` returns; so after a call that returns, the reader is set if and only
if at least one of the two decoders matches `v`. -/
theorem boxProps_update (processRect : JsiValue → Except JsiError (Option SkRect))
    (self : BoxProps) (v : JsiValue) (hset : self._boxProp.current = some v) :
    (∀ rect, processRect v = .ok (some rect) →
        (self.updateDerivedValue processRect).result
          = .ok { self with _derivedValue := some (SkRRect.MakeRect rect) })
      ∧ (∀ o, processRect v = .ok none → RRectProp.processRRect v = .ok o →
        (self.updateDerivedValue processRect).result = .ok { self with _derivedValue := o })
      ∧ (∀ s, (self.updateDerivedValue processRect).result = .ok s →
        (s.isSet = true ↔
          ((∃ rect, processRect v = .ok (some rect))
            ∨ (∃ r, RRectProp.processRRect v = .ok (some r))))) := by
  obtain ⟨⟨name, current⟩, cache⟩ := self
  simp only at hset
  subst hset
  refine ⟨fun rect hr => ?_, fun o hp ho => ?_, fun s hs => ?_⟩
  · rw [boxProps_result_eq, hr]
  · rw [boxProps_result_eq, hp, ho]
  · rw [boxProps_result_eq] at hs
    cases hp : processRect v with
    | error e => rw [hp] at hs; cases hs
    | ok o =>
      cases o with
      | some rect =>
        rw [hp] at hs
        cases hs
        exact ⟨fun _ => Or.inl ⟨rect, rfl⟩, fun _ => rfl⟩
      | none =>
        rw [hp] at hs
        cases ho : RRectProp.processRRect v with
        | error e => rw [ho] at hs; cases hs
        | ok o2 =>
          rw [ho] at hs
          cases hs
          cases o2 with
          | none =>
            constructor
            · intro h
              cases h
            · rintro (⟨rect, h⟩ | ⟨r, h⟩)
              · cases h
              · cases h
          | some r => exact ⟨fun _ => Or.inr ⟨r, rfl⟩, fun _ => rfl⟩

/-- C10 at an example: the value {x: 1, y: 2, width: 3, height: 4} is a plain rectangle,
so the box reader stores the rounded rect with zero radii made from (1, 2, 3, 4). -/
theorem boxProps_update_witness :
    (∀ rect, examplePlainRect examplePlainValue = .ok (some rect) →
        ((exampleBox (some examplePlainValue) none).updateDerivedValue examplePlainRect).result
          = .ok { exampleBox (some examplePlainValue) none with
              _derivedValue := some (SkRRect.MakeRect rect) })
      ∧ (∀ o, examplePlainRect examplePlainValue = .ok none →
        RRectProp.processRRect examplePlainValue = .ok o →
        ((exampleBox (some examplePlainValue) none).updateDerivedValue examplePlainRect).result
          = .ok { exampleBox (some examplePlainValue) none with _derivedValue := o })
      ∧ (∀ s,
        ((exampleBox (some examplePlainValue) none).updateDerivedValue examplePlainRect).result
          = .ok s →
        (s.isSet = true ↔
          ((∃ rect, examplePlainRect examplePlainValue = .ok (some rect))
            ∨ (∃ r, RRectProp.processRRect examplePlainValue = .ok (some r))))) :=
  boxProps_update examplePlainRect (exampleBox (some examplePlainValue) none)
    examplePlainValue rfl

/-- The example of C10 evaluated, and its companion: a value that is no plain rectangle
but a flat rounded-rect object is stored as the rounded-rect decoder returns it. -/
theorem boxProps_examples_eval :
    ((exampleBox (some examplePlainValue) none).updateDerivedValue examplePlainRect).result
        = .ok (exampleBox (some examplePlainValue)
            (some (SkRRect.MakeRect (SkRect.MakeXYWH 1 2 3 4))))
      ∧ ((exampleBox (some exampleUniform) none).updateDerivedValue examplePlainRect).result
        = .ok (exampleBox (some exampleUniform)
            (some (SkRRect.MakeRectXY (SkRect.MakeXYWH 10 20 30 40) 5 5))) :=
  ⟨rfl, rfl⟩

/-! ## How often a reader calls `setDerivedValue` -/

theorem rrectProp_events_eq (name : PropId) (v : JsiValue) (cache : Option SkRRect) :
    (RRectProp.updateDerivedValue ⟨⟨name, some v⟩, cache⟩).events
      = match RRectProp.processRRect v with
        | .ok o => [Event.isSet (Dep.raw name) true, Event.read (Dep.raw name),
            Event.setDerivedValue o]
        | .error _ => [Event.isSet (Dep.raw name) true, Event.read (Dep.raw name)] := by
  simp only [RRectProp.updateDerivedValue, bind, Exec.andThen, NodeProp.isSet, NodeProp.value,
    Exec.lift, Option.isSome, if_true, RRectProp.setDerivedValue]
  cases RRectProp.processRRect v <;> rfl

theorem boxProps_events_eq (processRect : JsiValue → Except JsiError (Option SkRect))
    (name : PropId) (v : JsiValue) (cache : Option SkRRect) :
    (BoxProps.updateDerivedValue processRect ⟨⟨name, some v⟩, cache⟩).events
      = match processRect v with
        | .ok (some rect) =>
          [Event.read (Dep.raw name), Event.setDerivedValue (some (SkRRect.MakeRect rect))]
        | .ok none =>
          match RRectProp.processRRect v with
          | .ok o => [Event.read (Dep.raw name), Event.setDerivedValue o]
          | .error _ => [Event.read (Dep.raw name)]
        | .error _ => [Event.read (Dep.raw name)] := by
  simp only [BoxProps.updateDerivedValue, bind, Exec.andThen, NodeProp.value, Exec.lift,
    BoxProps.setDerivedValue]
  cases processRect v with
  | error e => rfl
  | ok o =>
    cases o with
    | some rect => rfl
    | none => cases RRectProp.processRRect v <;> rfl

theorem rrectProp_calls (self s : RRectProp)
    (hret : self.updateDerivedValue.result = .ok s) :
    setDerivedValueCalls self.updateDerivedValue.events
      = (if self._prop.current.isSome then 1 else 0) := by
  obtain ⟨⟨name, current⟩, cache⟩ := self
  cases current with
  | none => rfl
  | some v =>
    rw [rrectProp_result_eq] at hret
    rw [rrectProp_events_eq]
    cases hp : RRectProp.processRRect v with
    | error e => rw [hp] at hret; cases hret
    | ok o => rfl

theorem boxProps_calls (processRect : JsiValue → Except JsiError (Option SkRect))
    (self s : BoxProps) (hret : (self.updateDerivedValue processRect).result = .ok s) :
    setDerivedValueCalls (self.updateDerivedValue processRect).events = 1 := by
  obtain ⟨⟨name, current⟩, cache⟩ := self
  cases current with
  | none => cases hret
  | some v =>
    rw [boxProps_result_eq] at hret
    rw [boxProps_events_eq]
    cases hp : processRect v with
    | error e => rw [hp] at hret; cases hret
    | ok o =>
      cases o with
      | some rect => rfl
      | none =>
        rw [hp] at hret
        cases hq : RRectProp.processRRect v with
        | error e => rw [hq] at hret; cases hret
        | ok o2 => rfl

theorem rrectProps_calls (self : RRectProps) :
    (∃ s, self.updateDerivedValue.result = .ok s)
      ∧ setDerivedValueCalls self.updateDerivedValue.events = 1 := by
  obtain ⟨⟨prop, leafCache⟩, ⟨px, py, pw, ph, pr, compCache⟩, cache⟩ := self
  cases leafCache with
  | some a => exact ⟨⟨_, rfl⟩, rfl⟩
  | none =>
    cases compCache with
    | some b => exact ⟨⟨_, rfl⟩, rfl⟩
    | none => exact ⟨⟨_, rfl⟩, rfl⟩

theorem fromProps_calls (self s : RRectPropFromProps)
    (hret : self.updateDerivedValue.result = .ok s) :
    setDerivedValueCalls self.updateDerivedValue.events
      = (if self.allSet then 1 else 0) := by
  obtain ⟨⟨nx, cx⟩, ⟨ny, cy⟩, ⟨nw, cw⟩, ⟨nh, ch⟩, ⟨nr, cr⟩, cache⟩ := self
  cases cx with
  | none => rfl
  | some vx =>
  cases cy with
  | none => rfl
  | some vy =>
  cases cw with
  | none => rfl
  | some vw =>
  cases ch with
  | none => rfl
  | some vh =>
  cases cr with
  | none => rfl
  | some vr =>
  cases vx with
  | number x =>
    cases vy with
    | number y =>
      cases vw with
      | number w =>
        cases vh with
        | number h =>
          cases vr with
          | number r => rfl
          | _ => cases hret
        | _ => cases hret
      | _ => cases hret
    | _ => cases hret
  | _ => cases hret

/-- C11, as the code has it: in a call of `updateDerivedValue` that returns normally the
chain reader and the box reader call `setDerivedValue` exactly once (the chain reader
always returns; the argument of its one call is the cache of the child reader it adopts,
and it is null, no value, when neither child is set); the leaf reader calls it exactly
once when its raw property is set and not at all when it is unset; the composite reader
calls it exactly once when all five raw properties are set and not at all when one of
them is unset. -/
theorem setDerivedValue_calls_by_guard
    (processRect : JsiValue → Except JsiError (Option SkRect))
    (leaf leaf2 : RRectProp) (comp comp2 : RRectPropFromProps) (chain : RRectProps)
    (box box2 : BoxProps)
    (hleaf : leaf.updateDerivedValue.result = .ok leaf2)
    (hcomp : comp.updateDerivedValue.result = .ok comp2)
    (hbox : (box.updateDerivedValue processRect).result = .ok box2) :
    setDerivedValueCalls leaf.updateDerivedValue.events
        = (if leaf._prop.current.isSome then 1 else 0)
      ∧ setDerivedValueCalls comp.updateDerivedValue.events
        = (if comp.allSet then 1 else 0)
      ∧ (∃ s, chain.updateDerivedValue.result = .ok s)
      ∧ setDerivedValueCalls chain.updateDerivedValue.events = 1
      ∧ setDerivedValueCalls (box.updateDerivedValue processRect).events = 1
      ∧ setDerivedValueArgs chain.updateDerivedValue.events =
          [if chain._rectProp.isSet = true then chain._rectProp._derivedValue
           else if chain._rectPropFromProps.isSet = true then
             chain._rectPropFromProps._derivedValue
           else none]
      ∧ (chain._rectProp.isSet = false → chain._rectPropFromProps.isSet = false →
          setDerivedValueArgs chain.updateDerivedValue.events = [none]) := by
  have hargs : setDerivedValueArgs chain.updateDerivedValue.events =
      [if chain._rectProp.isSet = true then chain._rectProp._derivedValue
       else if chain._rectPropFromProps.isSet = true then
         chain._rectPropFromProps._derivedValue
       else none] := by
    obtain ⟨⟨prop, leafCache⟩, ⟨px, py, pw, ph, pr, compCache⟩, cache⟩ := chain
    cases leafCache with
    | some a => rfl
    | none =>
      cases compCache with
      | some b => rfl
      | none => rfl
  refine ⟨rrectProp_calls leaf leaf2 hleaf, fromProps_calls comp comp2 hcomp,
    (rrectProps_calls chain).1, (rrectProps_calls chain).2,
    boxProps_calls processRect box box2 hbox, hargs, ?_⟩
  intro h1 h2
  rw [hargs, h1, h2]
  rfl

/-- C11 at examples: a leaf reader with the number 3 as raw value, the composite example
of the specification, a chain reader over an unset leaf and a gated composite, and the
box reader over a plain rectangle each call `setDerivedValue` exactly once; the one call
of the chain reader, neither of whose children is set, has the argument null. -/
theorem setDerivedValue_calls_by_guard_witness :
    setDerivedValueCalls (exampleLeaf (some (.number 3)) none).updateDerivedValue.events = 1
      ∧ setDerivedValueCalls (exampleFromProps none).updateDerivedValue.events = 1
      ∧ (∃ s, (RRectProps.mk (exampleLeaf none none) (exampleGated none)
            none).updateDerivedValue.result = .ok s)
      ∧ setDerivedValueCalls (RRectProps.mk (exampleLeaf none none) (exampleGated none)
            none).updateDerivedValue.events = 1
      ∧ setDerivedValueCalls
          ((exampleBox (some examplePlainValue) none).updateDerivedValue
            examplePlainRect).events = 1
      ∧ setDerivedValueArgs (RRectProps.mk (exampleLeaf none none) (exampleGated none)
            none).updateDerivedValue.events = [none]
      ∧ ((exampleLeaf none none).isSet = false → (exampleGated none).isSet = false →
          setDerivedValueArgs (RRectProps.mk (exampleLeaf none none) (exampleGated none)
            none).updateDerivedValue.events = [none]) :=
  setDerivedValue_calls_by_guard examplePlainRect
    (exampleLeaf (some (.number 3)) none) (exampleLeaf (some (.number 3)) none)
    (exampleFromProps none)
    (exampleFromProps (some (SkRRect.MakeRectXY (SkRect.MakeXYWH 0 0 10 10) 8 8)))
    (RRectProps.mk (exampleLeaf none none) (exampleGated none) none)
    (exampleBox (some examplePlainValue) none)
    (exampleBox (some examplePlainValue) (some (SkRRect.MakeRect (SkRect.MakeXYWH 1 2 3 4))))
    rfl rfl rfl

/-- C11 fails as stated: a leaf reader whose raw property is unset, and a composite
reader with only x, y, width set, return normally from `updateDerivedValue` without any
call of `setDerivedValue`. -/
theorem setDerivedValue_once_counterexample :
    ((exampleLeaf none none).updateDerivedValue.result = .ok (exampleLeaf none none)
        ∧ setDerivedValueCalls (exampleLeaf none none).updateDerivedValue.events = 0
        ∧ setDerivedValueCalls (exampleLeaf none none).updateDerivedValue.events ≠ 1)
      ∧ ((exampleGated none).updateDerivedValue.result = .ok (exampleGated none)
        ∧ setDerivedValueCalls (exampleGated none).updateDerivedValue.events = 0
        ∧ setDerivedValueCalls (exampleGated none).updateDerivedValue.events ≠ 1) :=
  ⟨⟨rfl, rfl, by decide⟩, ⟨rfl, rfl, by decide⟩⟩

/-! ## Reading a dependency only after `isSet()` -/

theorem rrectProp_reads_guarded (self : RRectProp) :
    readsGuarded self.updateDerivedValue.events = true := by
  obtain ⟨⟨name, current⟩, cache⟩ := self
  cases current with
  | none => rfl
  | some v =>
    rw [rrectProp_events_eq]
    cases RRectProp.processRRect v <;> simp [readsGuarded, readsGuardedFrom]

theorem rrectProps_reads_guarded (self : RRectProps) :
    readsGuarded self.updateDerivedValue.events = true := by
  obtain ⟨⟨prop, leafCache⟩, ⟨px, py, pw, ph, pr, compCache⟩, cache⟩ := self
  cases leafCache with
  | some a => rfl
  | none =>
    cases compCache with
    | some b => rfl
    | none => rfl

theorem fromProps_reads_guarded (self : RRectPropFromProps) :
    readsGuarded self.updateDerivedValue.events = true := by
  obtain ⟨⟨nx, cx⟩, ⟨ny, cy⟩, ⟨nw, cw⟩, ⟨nh, ch⟩, ⟨nr, cr⟩, cache⟩ := self
  cases cx with
  | none => rfl
  | some vx =>
  cases cy with
  | none => rfl
  | some vy =>
  cases cw with
  | none => rfl
  | some vw =>
  cases ch with
  | none => rfl
  | some vh =>
  cases cr with
  | none => rfl
  | some vr =>
  cases vx with
  | number x =>
    cases vy with
    | number y =>
      cases vw with
      | number w =>
        cases vh with
        | number h =>
          cases vr <;>
            simp [readsGuarded, readsGuardedFrom, RRectPropFromProps.updateDerivedValue, bind,
      Exec.andThen, Exec.andAlso, Exec.ret, Exec.lift, NodeProp.isSet, NodeProp.value,
      JsiValue.getAsNumber, RRectPropFromProps.setDerivedValue]
        | _ =>
          simp [readsGuarded, readsGuardedFrom, RRectPropFromProps.updateDerivedValue, bind,
      Exec.andThen, Exec.andAlso, Exec.ret, Exec.lift, NodeProp.isSet, NodeProp.value,
      JsiValue.getAsNumber, RRectPropFromProps.setDerivedValue]
      | _ =>
        simp [readsGuarded, readsGuardedFrom, RRectPropFromProps.updateDerivedValue, bind,
      Exec.andThen, Exec.andAlso, Exec.ret, Exec.lift, NodeProp.isSet, NodeProp.value,
      JsiValue.getAsNumber, RRectPropFromProps.setDerivedValue]
    | _ =>
      simp [readsGuarded, readsGuardedFrom, RRectPropFromProps.updateDerivedValue, bind,
      Exec.andThen, Exec.andAlso, Exec.ret, Exec.lift, NodeProp.isSet, NodeProp.value,
      JsiValue.getAsNumber, RRectPropFromProps.setDerivedValue]
  | _ =>
    simp [readsGuarded, readsGuardedFrom, RRectPropFromProps.updateDerivedValue, bind,
      Exec.andThen, Exec.andAlso, Exec.ret, Exec.lift, NodeProp.isSet, NodeProp.value,
      JsiValue.getAsNumber, RRectPropFromProps.setDerivedValue]

theorem boxProps_reads_first (processRect : JsiValue → Except JsiError (Option SkRect))
    (self : BoxProps) :
    (self.updateDerivedValue processRect).events.head?
        = some (Event.read (Dep.raw self._boxProp.name))
      ∧ readsGuarded (self.updateDerivedValue processRect).events = false := by
  obtain ⟨⟨name, current⟩, cache⟩ := self
  cases current with
  | none => exact ⟨rfl, rfl⟩
  | some v =>
    rw [boxProps_events_eq]
    cases processRect v with
    | error e => exact ⟨rfl, rfl⟩
    | ok o =>
      cases o with
      | some rect => exact ⟨rfl, rfl⟩
      | none => cases RRectProp.processRRect v <;> exact ⟨rfl, rfl⟩

/-- C12 at the failing input: a box reader whose raw property is unset reads `value()`
of that property as its first and only step, without any `isSet()` query before it, and
the read of the unset property is fatal. (The leaf, composite and chain readers guard
every read, see `rrectProp_reads_guarded`, `fromProps_reads_guarded` and
`rrectProps_reads_guarded`.) -/
theorem boxProps_reads_unguarded :
    ((exampleBox none none).updateDerivedValue examplePlainRect).events
        = [Event.read (Dep.raw "box")]
      ∧ readsGuarded ((exampleBox none none).updateDerivedValue examplePlainRect).events
        = false
      ∧ ((exampleBox none none).updateDerivedValue examplePlainRect).result
        = .error JsiError.typeMismatch :=
  ⟨rfl, rfl, rfl⟩

/-! ## Change propagation -/

/-- C13: for a chain reader whose composite reader declared x, y, width, height, r and has
all five set (x, y, height, r to numbers), and whose leaf reader is bound to another
property, a change of the raw `width` property to a number makes exactly one call of the
composite `updateDerivedValue` followed by exactly one call of the chain
`updateDerivedValue`, in that order; the wave returns, the composite reader then caches
the rounded rect computed from the new width, and that is the composite value that the
chain reader sees (and adopts when the leaf reader is not set). -/
theorem rawPropertyChanged_width (self : RRectProps) (x y w h r : Number)
    (hdecl : self._rectPropFromProps.Declared)
    (hleaf : self._rectProp._prop.name ≠ PropNameWidth)
    (hx : self._rectPropFromProps._x.current = some (.number x))
    (hy : self._rectPropFromProps._y.current = some (.number y))
    (hw : self._rectPropFromProps._width.current.isSome = true)
    (hh : self._rectPropFromProps._height.current = some (.number h))
    (hr : self._rectPropFromProps._r.current = some (.number r)) :
    (self.rawPropertyChanged PropNameWidth (some (.number w))).calls
        = [Reader.rrectPropFromProps, Reader.rrectProps]
      ∧ ∃ s, (self.rawPropertyChanged PropNameWidth (some (.number w))).result = .ok s
        ∧ s._rectPropFromProps._derivedValue
            = some (SkRRect.MakeRectXY (SkRect.MakeXYWH x y w h) r r)
        ∧ s._rectProp = self._rectProp
        ∧ s._derivedValue =
            (if self._rectProp.isSet = true then self._rectProp._derivedValue
             else some (SkRRect.MakeRectXY (SkRect.MakeXYWH x y w h) r r)) := by
  obtain ⟨⟨⟨leafName, leafCurrent⟩, leafCache⟩,
    ⟨⟨nx, cx⟩, ⟨ny, cy⟩, ⟨nw, cw⟩, ⟨nh, ch⟩, ⟨nr, cr⟩, compCache⟩, cache⟩ := self
  obtain ⟨h1, h2, h3, h4, h5⟩ := hdecl
  simp only at h1 h2 h3 h4 h5 hx hy hh hr hleaf
  subst h1 h2 h3 h4 h5 hx hy hh hr
  have e1 : (NodeProp.mk leafName leafCurrent).assign PropNameWidth (some (.number w))
      = ⟨leafName, leafCurrent⟩ := by
    simp [NodeProp.assign, hleaf]
  have e2 : RRectProp.dependsOn ⟨⟨leafName, leafCurrent⟩, leafCache⟩ PropNameWidth = false := by
    simp [RRectProp.dependsOn, hleaf]
  cases leafCache with
  | none =>
    simp only [RRectProps.rawPropertyChanged, RRectProp.assign, e1, e2]
    exact ⟨rfl, _, rfl, rfl, rfl, rfl⟩
  | some a =>
    simp only [RRectProps.rawPropertyChanged, RRectProp.assign, e1, e2]
    exact ⟨rfl, _, rfl, rfl, rfl, rfl⟩

/-- C13 at an example: the chain reader over the composite example of the specification
(x = 0, y = 0, width = 10, height = 10, r = 8) and an unset leaf reader; the width changes
to 20, the composite reader runs, then the chain reader, which adopts (0, 0, 20, 10) with
radius (8, 8). -/
theorem rawPropertyChanged_width_witness :
    ((exampleChain none none).rawPropertyChanged PropNameWidth (some (.number 20))).calls
        = [Reader.rrectPropFromProps, Reader.rrectProps]
      ∧ ∃ s, ((exampleChain none none).rawPropertyChanged PropNameWidth
            (some (.number 20))).result = .ok s
        ∧ s._rectPropFromProps._derivedValue
            = some (SkRRect.MakeRectXY (SkRect.MakeXYWH 0 0 20 10) 8 8)
        ∧ s._rectProp = exampleLeaf none none
        ∧ s._derivedValue = some (SkRRect.MakeRectXY (SkRect.MakeXYWH 0 0 20 10) 8 8) :=
  rawPropertyChanged_width (exampleChain none none) 0 0 20 10 8
    ⟨rfl, rfl, rfl, rfl, rfl⟩ (by decide) rfl rfl rfl rfl rfl

/-! ## The value decoder: fields that are not numbers, precedence, incomplete rect -/

theorem JsiValue.getAsNumber_number (n : Number) :
    (JsiValue.number n).getAsNumber = .ok n := rfl

theorem jsiError_eq (e : JsiError) : e = JsiError.typeMismatch := by
  cases e
  rfl

theorem processRRect_uniform_fields (value rect vx vy vw vh vrx vry : JsiValue)
    (hrect : value.getValue PropNameRect = .ok rect)
    (hx : rect.getValue PropNameX = .ok vx) (hy : rect.getValue PropNameY = .ok vy)
    (hw : rect.getValue PropNameWidth = .ok vw) (hh : rect.getValue PropNameHeight = .ok vh)
    (hrx : value.getValue PropNameRx = .ok vrx) (hry : value.getValue PropNameRy = .ok vry) :
    RRectProp.processRRect value = (do
      let x ← vx.getAsNumber
      let y ← vy.getAsNumber
      let w ← vw.getAsNumber
      let h ← vh.getAsNumber
      let rx ← vrx.getAsNumber
      let ry ← vry.getAsNumber
      pure (some (SkRRect.MakeRectXY (SkRect.MakeXYWH x y w h) rx ry))) := by
  have hty := JsiValue.getType_of_getValue hrect
  have hne : PropType.Object ≠ PropType.HostObject := by decide
  simp only [RRectProp.processRRect, hty, hrect, hx, hy, hw, hh, hrx, hry, andAlso_ok_true,
    JsiValue.hasValue_of_getValue hrect, JsiValue.hasValue_of_getValue hx,
    JsiValue.hasValue_of_getValue hy, JsiValue.hasValue_of_getValue hw,
    JsiValue.hasValue_of_getValue hh, JsiValue.hasValue_of_getValue hrx,
    JsiValue.hasValue_of_getValue hry, except_ok_bind, if_true, if_false, hne]

theorem processRRect_uniform_eq (value rect : JsiValue) (x y w h rx ry : Number)
    (hrect : value.getValue PropNameRect = .ok rect)
    (hx : rect.getValue PropNameX = .ok (.number x))
    (hy : rect.getValue PropNameY = .ok (.number y))
    (hw : rect.getValue PropNameWidth = .ok (.number w))
    (hh : rect.getValue PropNameHeight = .ok (.number h))
    (hrx : value.getValue PropNameRx = .ok (.number rx))
    (hry : value.getValue PropNameRy = .ok (.number ry)) :
    RRectProp.processRRect value
      = .ok (some (SkRRect.MakeRectXY (SkRect.MakeXYWH x y w h) rx ry)) := by
  rw [processRRect_uniform_fields value rect _ _ _ _ _ _ hrect hx hy hw hh hrx hry]
  rfl

/-- C15: an object value with a complete numeric `rect`, numeric `rx` and `ry` and also
all four corner records decodes to the uniform-radius rounded rect built from
(rect, rx, ry); every other value with the same rectangle numbers and the same `rx`, `ry`
decodes to the same result, whatever its corner records hold. -/
theorem processRRect_uniform_precedence (value rect : JsiValue) (x y w h rx ry : Number)
    (hrect : value.getValue PropNameRect = .ok rect)
    (hx : rect.getValue PropNameX = .ok (.number x))
    (hy : rect.getValue PropNameY = .ok (.number y))
    (hw : rect.getValue PropNameWidth = .ok (.number w))
    (hh : rect.getValue PropNameHeight = .ok (.number h))
    (hrx : value.getValue PropNameRx = .ok (.number rx))
    (hry : value.getValue PropNameRy = .ok (.number ry))
    (_hcorners : HasAllCorners value) :
    RRectProp.processRRect value
        = .ok (some (SkRRect.MakeRectXY (SkRect.MakeXYWH x y w h) rx ry))
      ∧ ∀ other : JsiValue, HasNumericRect other x y w h →
          other.getValue PropNameRx = .ok (.number rx) →
          other.getValue PropNameRy = .ok (.number ry) →
          RRectProp.processRRect other = RRectProp.processRRect value := by
  have hv := processRRect_uniform_eq value rect x y w h rx ry hrect hx hy hw hh hrx hry
  refine ⟨hv, ?_⟩
  rintro other ⟨rect2, h1, h2, h3, h4, h5⟩ h6 h7
  rw [hv, processRRect_uniform_eq other rect2 x y w h rx ry h1 h2 h3 h4 h5 h6 h7]

/-- C15 at an example: rect (10, 20, 30, 40) with rx = ry = 5 and the corner records
(1, 1), (2, 2), (3, 3), (4, 4) decodes to the uniform rounded rect, and so does the same
value with the corner records (9, 9), (8, 8), (7, 7), (6, 6). -/
theorem processRRect_uniform_precedence_witness :
    RRectProp.processRRect (exampleBoth ⟨1, 1⟩ ⟨2, 2⟩ ⟨3, 3⟩ ⟨4, 4⟩)
        = .ok (some (SkRRect.MakeRectXY (SkRect.MakeXYWH 10 20 30 40) 5 5))
      ∧ RRectProp.processRRect (exampleBoth ⟨9, 9⟩ ⟨8, 8⟩ ⟨7, 7⟩ ⟨6, 6⟩)
        = RRectProp.processRRect (exampleBoth ⟨1, 1⟩ ⟨2, 2⟩ ⟨3, 3⟩ ⟨4, 4⟩) :=
  have h := processRRect_uniform_precedence (exampleBoth ⟨1, 1⟩ ⟨2, 2⟩ ⟨3, 3⟩ ⟨4, 4⟩)
    (.object [("x", .number 10), ("y", .number 20), ("width", .number 30),
      ("height", .number 40)]) 10 20 30 40 5 5 rfl rfl rfl rfl rfl rfl rfl
    ⟨rfl, rfl, rfl, rfl⟩
  ⟨h.1, h.2 (exampleBoth ⟨9, 9⟩ ⟨8, 8⟩ ⟨7, 7⟩ ⟨6, 6⟩) ⟨_, rfl, rfl, rfl, rfl, rfl⟩ rfl rfl⟩

theorem andAlso_rect_fields_of_lack (rprops : List (PropId × JsiValue))
    (hlack : ¬ HasAllRectFields (.object rprops)) :
    andAlso ((JsiValue.object rprops).hasValue PropNameX)
      (andAlso ((JsiValue.object rprops).hasValue PropNameY)
      (andAlso ((JsiValue.object rprops).hasValue PropNameWidth)
        ((JsiValue.object rprops).hasValue PropNameHeight))) = .ok false := by
  unfold HasAllRectFields at hlack
  simp only [JsiValue.hasValue] at hlack ⊢
  cases h1 : (JsiValue.find PropNameX rprops).isSome <;>
    cases h2 : (JsiValue.find PropNameY rprops).isSome <;>
    cases h3 : (JsiValue.find PropNameWidth rprops).isSome <;>
    cases h4 : (JsiValue.find PropNameHeight rprops).isSome <;>
    simp_all [andAlso]

/-- C16: an object value that has `rect`, `rx` and `ry` and whose `rect` record lacks at
least one of x, y, width, height decodes to no match, without error and without a
partial result; this holds whatever else the value carries, the four corner records
included, because the per-corner branch is the `else` of the branch that was entered. -/
theorem processRRect_incomplete_rect (value rect : JsiValue)
    (hrect : value.getValue PropNameRect = .ok rect)
    (hrecord : rect.getType = PropType.Object)
    (hrxry : HasRxRy value)
    (hlack : ¬ HasAllRectFields rect) :
    RRectProp.processRRect value = .ok none := by
  have hty := JsiValue.getType_of_getValue hrect
  have hne : PropType.Object ≠ PropType.HostObject := by decide
  cases rect with
  | object rprops =>
    have hg := andAlso_rect_fields_of_lack rprops hlack
    simp only [RRectProp.processRRect, hty, hne, if_false, if_true,
      JsiValue.hasValue_of_getValue hrect, hrxry.1, hrxry.2, andAlso_ok_true, except_ok_bind,
      hrect, hg, except_pure, Bool.false_eq_true]
  | undefined => cases hrecord
  | number n => cases hrecord
  | string str => cases hrecord
  | hostObject ho => cases hrecord

/-- C16 at an example: a value with `rx`, `ry`, all four corner records and a `rect`
without height is no match. -/
theorem processRRect_incomplete_rect_witness :
    RRectProp.processRRect exampleIncompleteRect = .ok none :=
  processRRect_incomplete_rect exampleIncompleteRect
    (.object [("x", .number 10), ("y", .number 20), ("width", .number 30)])
    rfl rfl ⟨rfl, rfl⟩ (fun h => Bool.noConfusion (Except.ok.inj h.2.2.2))

/-- C17: for an object value whose `rect` has x, y, width, height all present and that
has `rx` and `ry` present, the decoder ends in the fatal type-mismatch error exactly
when at least one of those six fields is not a number; otherwise it returns a rounded
rect, so it never answers no match on such a value. -/
theorem processRRect_type_mismatch_iff (value rect vx vy vw vh vrx vry : JsiValue)
    (hrect : value.getValue PropNameRect = .ok rect)
    (hx : rect.getValue PropNameX = .ok vx) (hy : rect.getValue PropNameY = .ok vy)
    (hw : rect.getValue PropNameWidth = .ok vw) (hh : rect.getValue PropNameHeight = .ok vh)
    (hrx : value.getValue PropNameRx = .ok vrx) (hry : value.getValue PropNameRy = .ok vry) :
    (RRectProp.processRRect value = .error JsiError.typeMismatch ↔
        ¬ (vx.getType = PropType.Number ∧ vy.getType = PropType.Number
          ∧ vw.getType = PropType.Number ∧ vh.getType = PropType.Number
          ∧ vrx.getType = PropType.Number ∧ vry.getType = PropType.Number))
      ∧ (RRectProp.processRRect value = .error JsiError.typeMismatch
          ∨ ∃ r, RRectProp.processRRect value = .ok (some r)) := by
  rw [processRRect_uniform_fields value rect vx vy vw vh vrx vry hrect hx hy hw hh hrx hry]
  cases vx with
  | number x =>
    cases vy with
    | number y =>
      cases vw with
      | number w =>
        cases vh with
        | number h =>
          cases vrx with
          | number rx =>
            cases vry with
            | number ry =>
              exact ⟨⟨fun herr => (by cases herr),
                fun hn => absurd ⟨rfl, rfl, rfl, rfl, rfl, rfl⟩ hn⟩, Or.inr ⟨_, rfl⟩⟩
            | _ => exact ⟨⟨fun _ hall => (by cases hall.2.2.2.2.2), fun _ => rfl⟩, Or.inl rfl⟩
          | _ => exact ⟨⟨fun _ hall => (by cases hall.2.2.2.2.1), fun _ => rfl⟩, Or.inl rfl⟩
        | _ => exact ⟨⟨fun _ hall => (by cases hall.2.2.2.1), fun _ => rfl⟩, Or.inl rfl⟩
      | _ => exact ⟨⟨fun _ hall => (by cases hall.2.2.1), fun _ => rfl⟩, Or.inl rfl⟩
    | _ => exact ⟨⟨fun _ hall => (by cases hall.2.1), fun _ => rfl⟩, Or.inl rfl⟩
  | _ => exact ⟨⟨fun _ hall => (by cases hall.1), fun _ => rfl⟩, Or.inl rfl⟩

/-- C17 at examples: with the string "5" at `ry` the decoder ends in the fatal error,
with the number 5 at `ry` it does not. -/
theorem processRRect_type_mismatch_iff_witness :
    ((RRectProp.processRRect (exampleFields (.string "5")) = .error JsiError.typeMismatch ↔
        ¬ ((JsiValue.number 10).getType = PropType.Number
          ∧ (JsiValue.number 20).getType = PropType.Number
          ∧ (JsiValue.number 30).getType = PropType.Number
          ∧ (JsiValue.number 40).getType = PropType.Number
          ∧ (JsiValue.number 5).getType = PropType.Number
          ∧ (JsiValue.string "5").getType = PropType.Number))
      ∧ (RRectProp.processRRect (exampleFields (.string "5")) = .error JsiError.typeMismatch
          ∨ ∃ r, RRectProp.processRRect (exampleFields (.string "5")) = .ok (some r))) :=
  processRRect_type_mismatch_iff (exampleFields (.string "5"))
    (.object [("x", .number 10), ("y", .number 20), ("width", .number 30),
      ("height", .number 40)]) (.number 10) (.number 20) (.number 30) (.number 40)
    (.number 5) (.string "5") rfl rfl rfl rfl rfl rfl rfl

/-- The examples of C17 evaluated: the string "5" at `ry` is fatal, the number 5 is not. -/
theorem processRRect_type_mismatch_examples :
    RRectProp.processRRect (exampleFields (.string "5")) = .error JsiError.typeMismatch
      ∧ RRectProp.processRRect (exampleFields (.number 5))
        = .ok (some (SkRRect.MakeRectXY (SkRect.MakeXYWH 10 20 30 40) 5 5)) := by
  decide

theorem processRRect_corner_fields (value : JsiValue) (x y w h : Number)
    (ctl ctr cbr cbl v1 v2 v3 v4 v5 v6 v7 v8 : JsiValue)
    (hrect : HasNumericRect value x y w h) (hno : ¬ HasRxRy value)
    (htl : value.getValue PropNameTopLeft = .ok ctl)
    (h1 : ctl.getValue PropNameX = .ok v1) (h2 : ctl.getValue PropNameY = .ok v2)
    (htr : value.getValue PropNameTopRight = .ok ctr)
    (h3 : ctr.getValue PropNameX = .ok v3) (h4 : ctr.getValue PropNameY = .ok v4)
    (hbr : value.getValue PropNameBottomRight = .ok cbr)
    (h5 : cbr.getValue PropNameX = .ok v5) (h6 : cbr.getValue PropNameY = .ok v6)
    (hbl : value.getValue PropNameBottomLeft = .ok cbl)
    (h7 : cbl.getValue PropNameX = .ok v7) (h8 : cbl.getValue PropNameY = .ok v8) :
    RRectProp.processRRect value = (do
      let a1 ← v1.getAsNumber
      let a2 ← v2.getAsNumber
      let a3 ← v3.getAsNumber
      let a4 ← v4.getAsNumber
      let a5 ← v5.getAsNumber
      let a6 ← v6.getAsNumber
      let a7 ← v7.getAsNumber
      let a8 ← v8.getAsNumber
      pure (some (SkRRect.MakeEmpty.setRectRadii (SkRect.MakeXYWH x y w h)
        [SkPoint.Make a1 a2, SkPoint.Make a3 a4, SkPoint.Make a5 a6, SkPoint.Make a7 a8]))) := by
  obtain ⟨rect, hrect, hx, hy, hw, hh⟩ := hrect
  have hty := JsiValue.getType_of_getValue hrect
  have hne : PropType.Object ≠ PropType.HostObject := by decide
  have hg : andAlso (value.hasValue PropNameRx) (value.hasValue PropNameRy) = .ok false := by
    obtain ⟨props, rfl, _⟩ := JsiValue.getValue_ok hrect
    exact andAlso_rx_ry_of_not_both props hno
  have g1 := JsiValue.hasValue_of_getValue hrect
  have g2 := JsiValue.hasValue_of_getValue htl
  have g3 := JsiValue.hasValue_of_getValue htr
  have g4 := JsiValue.hasValue_of_getValue hbr
  have g5 := JsiValue.hasValue_of_getValue hbl
  have g6 := JsiValue.hasValue_of_getValue hx
  have g7 := JsiValue.hasValue_of_getValue hy
  have g8 := JsiValue.hasValue_of_getValue hw
  have g9 := JsiValue.hasValue_of_getValue hh
  simp only [RRectProp.processRRect, hty, hne, if_false, if_true, g1, hg, andAlso_ok_true,
    except_ok_bind, except_pure, g2, g3, g4, g5, g6, g7, g8, g9,
    hrect, hx, hy, hw, hh, htl, h1, h2, htr, h3, h4, hbr, h5, h6, hbl, h7, h8,
    JsiValue.getAsNumber_number, List.nil_append, List.cons_append, Bool.false_eq_true]

/-- C14, as the code has it: for an object value with a complete numeric `rect`, without
both `rx` and `ry`, whose four corner records each have `x` and `y` present, when at
least one of those eight fields is not a number the decoder ends in the fatal
type-mismatch error; it returns neither no match nor a rounded rect. -/
theorem processRRect_corner_not_number (value : JsiValue) (x y w h : Number)
    (ctl ctr cbr cbl v1 v2 v3 v4 v5 v6 v7 v8 : JsiValue)
    (hrect : HasNumericRect value x y w h) (hno : ¬ HasRxRy value)
    (htl : value.getValue PropNameTopLeft = .ok ctl)
    (h1 : ctl.getValue PropNameX = .ok v1) (h2 : ctl.getValue PropNameY = .ok v2)
    (htr : value.getValue PropNameTopRight = .ok ctr)
    (h3 : ctr.getValue PropNameX = .ok v3) (h4 : ctr.getValue PropNameY = .ok v4)
    (hbr : value.getValue PropNameBottomRight = .ok cbr)
    (h5 : cbr.getValue PropNameX = .ok v5) (h6 : cbr.getValue PropNameY = .ok v6)
    (hbl : value.getValue PropNameBottomLeft = .ok cbl)
    (h7 : cbl.getValue PropNameX = .ok v7) (h8 : cbl.getValue PropNameY = .ok v8)
    (hbad : ¬ (v1.getType = PropType.Number ∧ v2.getType = PropType.Number
      ∧ v3.getType = PropType.Number ∧ v4.getType = PropType.Number
      ∧ v5.getType = PropType.Number ∧ v6.getType = PropType.Number
      ∧ v7.getType = PropType.Number ∧ v8.getType = PropType.Number)) :
    RRectProp.processRRect value = .error JsiError.typeMismatch
      ∧ RRectProp.processRRect value ≠ .ok none
      ∧ ∀ r, RRectProp.processRRect value ≠ .ok (some r) := by
  have key : RRectProp.processRRect value = .error JsiError.typeMismatch := by
    rw [processRRect_corner_fields value x y w h ctl ctr cbr cbl v1 v2 v3 v4 v5 v6 v7 v8
      hrect hno htl h1 h2 htr h3 h4 hbr h5 h6 hbl h7 h8]
    cases v1 with
    | number a1 =>
      cases v2 with
      | number a2 =>
        cases v3 with
        | number a3 =>
          cases v4 with
          | number a4 =>
            cases v5 with
            | number a5 =>
              cases v6 with
              | number a6 =>
                cases v7 with
                | number a7 =>
                  cases v8 with
                  | number a8 => exact absurd ⟨rfl, rfl, rfl, rfl, rfl, rfl, rfl, rfl⟩ hbad
                  | _ => rfl
                | _ => rfl
              | _ => rfl
            | _ => rfl
          | _ => rfl
        | _ => rfl
      | _ => rfl
    | _ => rfl
  refine ⟨key, ?_, ?_⟩
  · rw [key]
    intro h
    cases h
  · intro r
    rw [key]
    intro h
    cases h

/-- C14 at an example: over rect (0, 0, 100, 50) the `topLeft` record holds the string
"1" at `x`; the decoder ends in the fatal error. -/
theorem processRRect_corner_not_number_witness :
    RRectProp.processRRect (exampleCornerField (.string "1")) = .error JsiError.typeMismatch
      ∧ RRectProp.processRRect (exampleCornerField (.string "1")) ≠ .ok none
      ∧ ∀ r, RRectProp.processRRect (exampleCornerField (.string "1")) ≠ .ok (some r) :=
  processRRect_corner_not_number (exampleCornerField (.string "1")) 0 0 100 50
    (.object [("x", .string "1"), ("y", .number 1)])
    (.object [("x", .number 2), ("y", .number 2)])
    (.object [("x", .number 3), ("y", .number 3)])
    (.object [("x", .number 4), ("y", .number 4)])
    (.string "1") (.number 1) (.number 2) (.number 2) (.number 3) (.number 3)
    (.number 4) (.number 4)
    ⟨_, rfl, rfl, rfl, rfl, rfl⟩
    (fun h => Bool.noConfusion (Except.ok.inj h.1))
    rfl rfl rfl rfl rfl rfl rfl rfl rfl rfl rfl rfl
    (fun h => PropType.noConfusion h.1)

/-- C14 fails as stated: the value over rect (0, 0, 100, 50) whose `topLeft` record holds
the string "1" at `x` has a complete numeric rect, all four corner fields, not both of
`rx`, `ry`, and a corner record without a numeric `x`; the decoder does not return no
match on it, it ends in the fatal type-mismatch error. -/
theorem processRRect_corner_no_match_counterexample :
    HasNumericRect (exampleCornerField (.string "1")) 0 0 100 50
      ∧ HasAllCorners (exampleCornerField (.string "1"))
      ∧ ¬ HasRxRy (exampleCornerField (.string "1"))
      ∧ (∀ p, ¬ HasCorner (exampleCornerField (.string "1")) PropNameTopLeft p)
      ∧ RRectProp.processRRect (exampleCornerField (.string "1")) ≠ .ok none
      ∧ RRectProp.processRRect (exampleCornerField (.string "1"))
          = .error JsiError.typeMismatch := by
  refine ⟨⟨_, rfl, rfl, rfl, rfl, rfl⟩, ⟨rfl, rfl, rfl, rfl⟩,
    fun h => Bool.noConfusion (Except.ok.inj h.1), ?_, by decide, by decide⟩
  rintro p ⟨corner, hc, hx, _⟩
  have hc2 : corner = .object [("x", .string "1"), ("y", .number 1)] :=
    (Except.ok.inj hc).symm
  subst hc2
  have hx2 : JsiValue.string "1" = JsiValue.number p.fX := Except.ok.inj hx
  cases hx2

/-! ## A stale leaf value, and the round trip through a handle -/

/-- C18: a chain reader whose leaf reader cached the rounded rect A, whose named raw
property is now unset and whose five sibling scalars are set to numbers that make the
composite value B different from A: updating the leaf reader, the composite reader and
then the chain reader all return, the composite reader caches B, and the chain reader
reports A, not B. -/
theorem stale_leaf_shadows_composite (chain : RRectProps) (A : SkRRect)
    (x y w h r : Number)
    (hA : chain._rectProp._derivedValue = some A)
    (hunset : chain._rectProp._prop.current = none)
    (hx : chain._rectPropFromProps._x.current = some (.number x))
    (hy : chain._rectPropFromProps._y.current = some (.number y))
    (hw : chain._rectPropFromProps._width.current = some (.number w))
    (hh : chain._rectPropFromProps._height.current = some (.number h))
    (hr : chain._rectPropFromProps._r.current = some (.number r))
    (hAB : SkRRect.MakeRectXY (SkRect.MakeXYWH x y w h) r r ≠ A) :
    ∃ leaf comp s,
      chain._rectProp.updateDerivedValue.result = .ok leaf
        ∧ chain._rectPropFromProps.updateDerivedValue.result = .ok comp
        ∧ (RRectProps.updateDerivedValue
            { chain with _rectProp := leaf, _rectPropFromProps := comp }).result = .ok s
        ∧ comp._derivedValue = some (SkRRect.MakeRectXY (SkRect.MakeXYWH x y w h) r r)
        ∧ s._derivedValue = some A
        ∧ s._derivedValue ≠ some (SkRRect.MakeRectXY (SkRect.MakeXYWH x y w h) r r) := by
  obtain ⟨⟨⟨leafName, leafCurrent⟩, leafCache⟩,
    ⟨⟨nx, cx⟩, ⟨ny, cy⟩, ⟨nw, cw⟩, ⟨nh, ch⟩, ⟨nr, cr⟩, compCache⟩, cache⟩ := chain
  simp only at hA hunset hx hy hw hh hr
  subst hA hunset hx hy hw hh hr
  refine ⟨_, _, _, rfl, rfl, rfl, rfl, rfl, ?_⟩
  intro hs
  exact hAB (Option.some.inj hs).symm

/-- C18 at an example: the leaf reader cached (1, 2, 3, 4) with radius (1, 1), the named
property is unset, the siblings give (0, 0, 10, 10) with radius (8, 8); the chain reader
reports the cached leaf value. -/
theorem stale_leaf_shadows_composite_witness :
    ∃ leaf comp s,
      (exampleChain none (some exampleCached))._rectProp.updateDerivedValue.result = .ok leaf
        ∧ (exampleChain none (some exampleCached))._rectPropFromProps.updateDerivedValue.result
            = .ok comp
        ∧ (RRectProps.updateDerivedValue
            { exampleChain none (some exampleCached) with
              _rectProp := leaf, _rectPropFromProps := comp }).result = .ok s
        ∧ comp._derivedValue = some (SkRRect.MakeRectXY (SkRect.MakeXYWH 0 0 10 10) 8 8)
        ∧ s._derivedValue = some exampleCached
        ∧ s._derivedValue ≠ some (SkRRect.MakeRectXY (SkRect.MakeXYWH 0 0 10 10) 8 8) :=
  stale_leaf_shadows_composite (exampleChain none (some exampleCached)) exampleCached
    0 0 10 10 8 rfl rfl rfl rfl rfl rfl rfl (by decide)

theorem processRRect_handle_of_uniform (rect : SkRect) (rx ry : Number) :
    RRectProp.processRRect (.hostObject (.jsiSkRRect ⟨SkRRect.MakeRectXY rect rx ry⟩))
      = .ok (some (SkRRect.MakeRectXY rect rx ry)) := rfl

theorem fromProps_cache_of_all_set (self s : RRectPropFromProps)
    (hall : self.allSet = true) (hret : self.updateDerivedValue.result = .ok s) :
    ∃ rect r, s._derivedValue = some (SkRRect.MakeRectXY rect r r) := by
  obtain ⟨⟨nx, cx⟩, ⟨ny, cy⟩, ⟨nw, cw⟩, ⟨nh, ch⟩, ⟨nr, cr⟩, cache⟩ := self
  cases cx with
  | none => cases hall
  | some vx =>
  cases cy with
  | none => cases hall
  | some vy =>
  cases cw with
  | none => cases hall
  | some vw =>
  cases ch with
  | none => cases hall
  | some vh =>
  cases cr with
  | none => cases hall
  | some vr =>
  cases vx with
  | number x =>
    cases vy with
    | number y =>
      cases vw with
      | number w =>
        cases vh with
        | number h =>
          cases vr with
          | number r =>
            cases hret
            exact ⟨SkRect.MakeXYWH x y w h, r, rfl⟩
          | _ => cases hret
        | _ => cases hret
      | _ => cases hret
    | _ => cases hret
  | _ => cases hret

/-- C19: a rounded rect R produced by the flat-object uniform branch of the decoder, or
stored by the composite reader in a call with all five raw properties set, survives the
round trip through a handle: wrapping R in a rounded-rect host object and decoding that
value returns R. -/
theorem processRRect_handle_round_trip (R : SkRRect)
    (hR : (∃ (value rect : JsiValue) (x y w h rx ry : Number),
            value.getValue PropNameRect = .ok rect
            ∧ rect.getValue PropNameX = .ok (.number x)
            ∧ rect.getValue PropNameY = .ok (.number y)
            ∧ rect.getValue PropNameWidth = .ok (.number w)
            ∧ rect.getValue PropNameHeight = .ok (.number h)
            ∧ value.getValue PropNameRx = .ok (.number rx)
            ∧ value.getValue PropNameRy = .ok (.number ry)
            ∧ RRectProp.processRRect value = .ok (some R))
        ∨ (∃ comp s : RRectPropFromProps, comp.allSet = true
            ∧ comp.updateDerivedValue.result = .ok s ∧ s._derivedValue = some R)) :
    RRectProp.processRRect (.hostObject (.jsiSkRRect ⟨R⟩)) = .ok (some R) := by
  rcases hR with ⟨value, rect, x, y, w, h, rx, ry, h1, h2, h3, h4, h5, h6, h7, hv⟩
    | ⟨comp, s, hall, hret, hs⟩
  · rw [processRRect_uniform_eq value rect x y w h rx ry h1 h2 h3 h4 h5 h6 h7] at hv
    have hR2 := Option.some.inj (Except.ok.inj hv)
    rw [← hR2]
    exact processRRect_handle_of_uniform _ _ _
  · obtain ⟨rect, r, hc⟩ := fromProps_cache_of_all_set comp s hall hret
    rw [hc] at hs
    have hR2 := Option.some.inj hs
    rw [← hR2]
    exact processRRect_handle_of_uniform _ _ _

/-- C19 at the example of the specification: the rounded rect decoded from rect
(10, 20, 30, 40) with rx = ry = 5 is decoded again from its handle. -/
theorem processRRect_handle_round_trip_witness :
    RRectProp.processRRect (.hostObject (.jsiSkRRect
        ⟨SkRRect.MakeRectXY (SkRect.MakeXYWH 10 20 30 40) 5 5⟩))
      = .ok (some (SkRRect.MakeRectXY (SkRect.MakeXYWH 10 20 30 40) 5 5)) :=
  processRRect_handle_round_trip (SkRRect.MakeRectXY (SkRect.MakeXYWH 10 20 30 40) 5 5)
    (Or.inl ⟨exampleUniform,
      .object [("x", .number 10), ("y", .number 20), ("width", .number 30),
        ("height", .number 40)], 10, 20, 30, 40, 5, 5,
      rfl, rfl, rfl, rfl, rfl, rfl, rfl, by decide⟩)

end RNSkia
